import Mathlib

/-!
# Dependency-client initialisation of the device service (`clientinitializer.go`)

A shallow embedding of `initDependencyClients` and the functions it calls.

* Every interaction with the outside (HTTP GET, TCP dial, registry queries,
  `time.Sleep`, log lines, client constructors, list calls) is recorded as an
  `Event` of a trace, in program order.
* The answers of the outside world are inputs: one `Cycle` per probe of a
  dependency, one `Option String` (the `err`) per list call.
* The retry functions recurse without bound in the source.  A model run is
  given a finite script of answers; a run that needs an answer the script no
  longer holds stops there with `returned = false` (the Go function is still
  blocked at that point).
-/

namespace DeviceSdk

/-! ## Declarations the source file imports -/

/-- Package `common` of the SDK: the constants and the helper `BuildAddr` that
`clientinitializer.go` uses.  Their declarations are outside the source tree,
so they are parameters of every definition below. -/
structure Common where
  ClientData : String
  ClientMetadata : String
  APIPrefix : String
  V1Addressable : String
  V1Device : String
  V1DevService : String
  V1Event : String
  BuildAddr : String → String → String

/-- Unexported path constants of package `device` declared in another file. -/
structure Paths where
  v1Deviceprofile : String
  v1Schedule : String
  v1ScheduleEvent : String
  v1Valuedescriptor : String

/-- One entry of `svc.config.Clients`. -/
structure ClientInfo where
  Name : String
  Host : String
  Port : Int
  Timeout : Int

/-- The section `svc.config.Logging`. -/
structure LoggingInfo where
  RemoteURL : String
  File : String

/-- The section `svc.config.Registry`. -/
structure RegistryInfo where
  Host : String
  Port : Int

/-- The part of `svc.config` read here.  `Clients` is a Go map indexed by the
service id; indexing is total (a missing key reads as the zero value), so it
is a function. -/
structure Config where
  Logging : LoggingInfo
  Clients : String → ClientInfo
  Registry : RegistryInfo

/-- The struct `types.EndpointParams` handed to every client constructor. -/
structure EndpointParams where
  ServiceKey : String
  Path : String
  UseRegistry : Bool
  Url : String
  deriving DecidableEq, Repr

/-- The eight client fields of the service. -/
inductive ClientKind
  | ac | dc | sc | dpc | scc | scec | ec | vdc
  deriving DecidableEq, Repr

/-- The two list calls of `checkClientsInitialSuccessful`. -/
inductive ListCall
  | Schedules | ScheduleEvents
  deriving DecidableEq, Repr

/-- What `logger.NewClient(svc.Name, remoteLog, logTarget)` was given. -/
structure LoggingClient where
  owner : String
  remote : Bool
  target : String
  deriving DecidableEq, Repr

/-- The global `svc`: configuration, discovery flag, logger and the eight
resource clients (`none` is Go's nil). -/
structure Service where
  Name : String
  config : Config
  useRegistry : Bool
  lc : Option LoggingClient
  ac : Option EndpointParams
  dc : Option EndpointParams
  sc : Option EndpointParams
  dpc : Option EndpointParams
  scc : Option EndpointParams
  scec : Option EndpointParams
  ec : Option EndpointParams
  vdc : Option EndpointParams

/-! ## Events and answers of the outside world -/

/-- One observable action of the program. -/
inductive Event
  | println (msg : String)
  | newLogger (c : LoggingClient)
  | info (msg : String)
  | warn (msg : String)
  | error (msg : String)
  | httpGet (url : String) (timeoutNs : Int)
  | sleep (seconds : Nat)
  | dial (addr : String)
  | connClose
  | newConsulClient (addr : String)
  | catalogService (id : String)
  | healthChecks (id : String)
  | newClient (kind : ClientKind) (params : EndpointParams)
  | listCall (call : ListCall) (err : Option String)
  deriving DecidableEq, Repr

/-- A Go `error` value as the caller inspects it: its `Error()` text, whether
its dynamic type implements `net.Error`, and what `Timeout()` answers. -/
structure GoError where
  msg : String
  netError : Bool
  timeout : Bool
  deriving DecidableEq, Repr

/-- Outcome of one `http.Client.Get`: a response with its status code (any
status, the client reports no error for a non-2xx response), or a failure,
which is a timeout or another transport error. -/
inductive GetResult
  | response (status : Nat)
  | failure (msg : String) (timeout : Bool)
  deriving DecidableEq, Repr

/-- The `err` that `http.Client.Get` returns: nil with a response, otherwise a
`*url.Error`, a type that implements `net.Error`. -/
def GetResult.err : GetResult → Option GoError
  | .response _ => none
  | .failure msg t => some ⟨msg, true, t⟩

/-- What the outside world answers during one probe cycle of one dependency:
to the ping GET (direct mode) and to the dial, client construction, catalog
query and health query (registry mode).  `dial` and `newClient` hold the
error text when the step fails; `catalog` is the number of instances found;
`health` is the aggregated status string. -/
structure Cycle where
  ping : GetResult
  dial : Option String
  newClient : Option String
  catalog : Except String Nat
  health : Except String String

/-- Result of running a blocking function on a finite script: the events it
produced and whether it has returned. -/
structure Run where
  trace : List Event
  returned : Bool
  deriving DecidableEq, Repr

/-- Go's `int64(x)` of a mathematical integer: wrap to 64 bits, two's complement. -/
def wrapInt64 (x : Int) : Int :=
  (x + 2 ^ 63) % 2 ^ 64 - 2 ^ 63

/-- The function `strconv.Itoa`. -/
def Itoa (n : Int) : String := toString n

/-! ## The readiness probes -/

/-- The function `checkServiceAvailableByPing`: one GET on the ping path of the
dependency; returns the `err` of the GET. -/
def checkServiceAvailableByPing (cm : Common) (svc : Service) (serviceId : String)
    (get : GetResult) : Option GoError × List Event :=
  let host := (svc.config.Clients serviceId).Host
  let port := Itoa (svc.config.Clients serviceId).Port
  let addr := cm.BuildAddr host port
  let timeout := wrapInt64 (wrapInt64 (svc.config.Clients serviceId).Timeout * 1000000)
  let ev := [Event.info ("Check " ++ serviceId ++ " service's status ..."),
             Event.httpGet (addr ++ cm.APIPrefix ++ "/ping") timeout]
  match get.err with
  | some e => (some e, ev ++ [Event.error ("Error getting ping: " ++ e.msg ++ " ")])
  | none => (none, ev)

/-- The function `checkConsulAvailable`: dial the registry and close at once. -/
def checkConsulAvailable (svc : Service) (dial : Option String) : Bool × List Event :=
  let addr := svc.config.Registry.Host ++ ":" ++ Itoa svc.config.Registry.Port
  match dial with
  | some e =>
    (false, [Event.dial addr,
             Event.error ("Consul cannot be reached, address: " ++ addr ++
               " and error is \"" ++ e ++ "\" ")])
  | none => (true, [Event.dial addr, Event.connClose])

/-- The function `checkServiceAvailableByConsul`: one registry check cycle. -/
def checkServiceAvailableByConsul (cm : Common) (svc : Service) (serviceConsulId : String)
    (c : Cycle) : Bool × List Event :=
  let ev0 := [Event.info ("Check " ++ serviceConsulId ++ " service's status by Consul...")]
  let (isConsulUp, evDial) := checkConsulAvailable svc c.dial
  if !isConsulUp then (false, ev0 ++ evDial)
  else
    let host := svc.config.Registry.Host
    let port := Itoa svc.config.Registry.Port
    let consulAddr := cm.BuildAddr host port
    let ev1 := ev0 ++ evDial ++ [Event.newConsulClient consulAddr]
    match c.newClient with
    | some e => (false, ev1 ++ [Event.error e])
    | none =>
      let ev2 := ev1 ++ [Event.catalogService serviceConsulId]
      match c.catalog with
      | .error e => (false, ev2 ++ [Event.error e])
      | .ok services =>
        if services ≤ 0 then
          (false, ev2 ++ [Event.error (serviceConsulId ++ " service hasn't started...")])
        else
          let ev3 := ev2 ++ [Event.healthChecks serviceConsulId]
          match c.health with
          | .error e => (false, ev3 ++ [Event.error e])
          | .ok status =>
            if status = "passing" then (true, ev3)
            else
              (false, ev3 ++
                [Event.error (serviceConsulId ++ " service hasn't been available...")])

/-- The function `checkServiceAvailable`: probe, and on an unhealthy probe
call itself again.  The script holds one `Cycle` per probe.  In the direct
branch the `if` rebinds `err` to the result of the assertion
`err.(net.Error)`, so both tests look at an error that implements
`net.Error`: a timeout recurses at once, any other such error sleeps first. -/
def checkServiceAvailable (cm : Common) (svc : Service) (serviceId : String) :
    List Cycle → Run
  | [] => ⟨[], false⟩
  | c :: rest =>
    if svc.useRegistry then
      let (ok, ev) := checkServiceAvailableByConsul cm svc (svc.config.Clients serviceId).Name c
      if !ok then
        let r := checkServiceAvailable cm svc serviceId rest
        ⟨ev ++ [Event.sleep 10] ++ r.trace, r.returned⟩
      else ⟨ev, true⟩
    else
      let (err, ev) := checkServiceAvailableByPing cm svc serviceId c.ping
      match err with
      | some e =>
        if e.netError && e.timeout then
          let r := checkServiceAvailable cm svc serviceId rest
          ⟨ev ++ r.trace, r.returned⟩
        else if e.netError then
          let r := checkServiceAvailable cm svc serviceId rest
          ⟨ev ++ [Event.sleep 10] ++ r.trace, r.returned⟩
        else ⟨ev, true⟩
      | none => ⟨ev, true⟩

/-! ## The readiness gate -/

/-- All ways two goroutines can be scheduled: the schedule says which branch
moves next (`true` the first, `false` the second); a branch that has nothing
left lets the other run, and when the schedule ends the first runs before the
second. -/
def interleave : List Bool → List Event → List Event → List Event
  | [], a, b => a ++ b
  | true :: s, x :: a, b => x :: interleave s a b
  | true :: _, [], b => b
  | false :: s, a, y :: b => y :: interleave s a b
  | false :: _, a, [] => a

/-- The function `checkDependencyServices`: one goroutine per entry of
`dependencyList = {common.ClientData, common.ClientMetadata}`, each running
`checkServiceAvailable` against its own script, and `waitGroup.Wait()`, which
returns once both goroutines have called `Done`. -/
def checkDependencyServices (cm : Common) (svc : Service)
    (data metadata : List Cycle) (schedule : List Bool) : Run :=
  let d := checkServiceAvailable cm svc cm.ClientData data
  let m := checkServiceAvailable cm svc cm.ClientMetadata metadata
  ⟨interleave schedule d.trace m.trace, d.returned && m.returned⟩

/-! ## Logging client -/

/-- The function `checkRemoteLoggingAvailable`: one GET with the default client
(no timeout). -/
def checkRemoteLoggingAvailable (cm : Common) (svc : Service) (get : GetResult) :
    Bool × List Event :=
  let ev := [Event.println "Check Logging service's status ...",
             Event.httpGet (svc.config.Logging.RemoteURL ++ cm.APIPrefix ++ "/ping") 0]
  match get.err with
  | some e => (false, ev ++ [Event.println ("Error getting ping: " ++ e.msg)])
  | none => (true, ev)

/-- The function `initializeLoggingClient`. -/
def initializeLoggingClient (cm : Common) (svc : Service) (get : GetResult) :
    Service × List Event :=
  if svc.config.Logging.RemoteURL = "" then
    let c : LoggingClient := ⟨svc.Name, false, svc.config.Logging.File⟩
    ({ svc with lc := some c }, [Event.newLogger c])
  else
    let (available, ev) := checkRemoteLoggingAvailable cm svc get
    if available then
      let c : LoggingClient := ⟨svc.Name, true, svc.config.Logging.RemoteURL⟩
      ({ svc with lc := some c },
        ev ++ [Event.println "Ping remote logging service success, use remote logging.",
               Event.newLogger c])
    else
      let c : LoggingClient := ⟨svc.Name, false, svc.config.Logging.File⟩
      ({ svc with lc := some c },
        ev ++ [Event.println "Ping remote logging service failed, use log file instead.",
               Event.newLogger c])

/-! ## Client construction -/

/-- The function `initializeClients`: eight constructor calls, each given the
current value of the local `params`.  The shared `consulEndpoint` argument is
the same for all eight and is left out of the event. -/
def initializeClients (cm : Common) (pk : Paths) (svc0 : Service) : Service × List Event :=
  Id.run do
    let mut svc : Service := svc0
    let mut ev : List Event := []
    let metaPort := Itoa (svc.config.Clients cm.ClientMetadata).Port
    let metaHost := (svc.config.Clients cm.ClientMetadata).Host
    let metaAddr := cm.BuildAddr metaHost metaPort
    let dataPort := Itoa (svc.config.Clients cm.ClientData).Port
    let dataHost := (svc.config.Clients cm.ClientData).Host
    let dataAddr := cm.BuildAddr dataHost dataPort
    let mut params : EndpointParams :=
      { ServiceKey := "", Path := "", UseRegistry := svc.useRegistry, Url := "" }
    -- initialize Core Metadata clients
    params := { params with ServiceKey := (svc.config.Clients cm.ClientMetadata).Name }
    params := { params with Path := cm.V1Addressable }
    params := { params with Url := metaAddr ++ params.Path }
    svc := { svc with ac := some params }
    ev := ev ++ [Event.newClient .ac params]
    params := { params with Path := cm.V1Device }
    params := { params with Url := metaAddr ++ params.Path }
    svc := { svc with dc := some params }
    ev := ev ++ [Event.newClient .dc params]
    params := { params with Path := cm.V1DevService }
    params := { params with Url := metaAddr ++ params.Path }
    svc := { svc with sc := some params }
    ev := ev ++ [Event.newClient .sc params]
    params := { params with Path := pk.v1Deviceprofile }
    params := { params with Url := metaAddr ++ params.Path }
    svc := { svc with dpc := some params }
    ev := ev ++ [Event.newClient .dpc params]
    params := { params with Path := pk.v1Schedule }
    params := { params with Url := metaAddr ++ params.Path }
    svc := { svc with scc := some params }
    ev := ev ++ [Event.newClient .scc params]
    params := { params with Path := pk.v1ScheduleEvent }
    params := { params with Url := metaAddr ++ params.Path }
    svc := { svc with scec := some params }
    ev := ev ++ [Event.newClient .scec params]
    -- initialize Core Data clients
    params := { params with ServiceKey := (svc.config.Clients cm.ClientData).Name }
    params := { params with Path := cm.V1Event }
    params := { params with Url := dataAddr ++ params.Path }
    svc := { svc with ec := some params }
    ev := ev ++ [Event.newClient .ec params]
    params := { params with Path := pk.v1Valuedescriptor }
    params := { params with Url := dataAddr ++ params.Path }
    svc := { svc with vdc := some params }
    ev := ev ++ [Event.newClient .vdc params]
    return (svc, ev)

/-! ## Post-initialisation check -/

/-- The function `checkClientsInitialSuccessful`.  The script holds the `err` of
each list call in the order the calls are issued; the result is the run and
the unread rest of the script.  The first argument bounds the depth of the
recursion.  After the recursive call inside the first `if` returns, control
falls through to the `ScheduleEvents` part of the calling frame. -/
def checkClientsInitialSuccessful : Nat → List (Option String) → Run × List (Option String)
  | 0, s => (⟨[], false⟩, s)
  | _ + 1, [] => (⟨[], false⟩, [])
  | fuel + 1, err1 :: s1 =>
    -- `_, err := svc.scc.Schedules()`
    let first : Run × List (Option String) :=
      match err1 with
      | some e =>
        let (r, s) := checkClientsInitialSuccessful fuel s1
        (⟨[Event.listCall .Schedules err1,
            Event.warn ("Metadata.schedule client has not been initialized yet... Error: " ++
              e ++ " . Wait a seconds."),
            Event.sleep 2] ++ r.trace, r.returned⟩, s)
      | none => (⟨[Event.listCall .Schedules err1], true⟩, s1)
    if !first.1.returned then first
    else
      -- `_, err = svc.scec.ScheduleEvents()`
      match first.2 with
      | [] => (⟨first.1.trace, false⟩, [])
      | err2 :: s2 =>
        match err2 with
        | some e =>
          let (r, s) := checkClientsInitialSuccessful fuel s2
          (⟨first.1.trace ++
             [Event.listCall .ScheduleEvents err2,
              Event.warn ("Metadata.scheduleEvent has not been initialized yet... Error: " ++
                e ++ " . Wait a seconds."),
              Event.sleep 2] ++ r.trace, r.returned⟩, s)
        | none => (⟨first.1.trace ++ [Event.listCall .ScheduleEvents err2], true⟩, s2)

/-! ## The whole initialisation -/

/-- Everything the outside world answers during one run of
`initDependencyClients`. -/
structure World where
  loggingPing : GetResult
  data : List Cycle
  metadata : List Cycle
  schedule : List Bool
  listCalls : List (Option String)

/-- The function `initDependencyClients`: the four steps in sequence; a step
that has not returned keeps the later ones from starting.  The recursion bound
given to the last step exceeds the length of its script, so it is never the
reason for stopping. -/
def initDependencyClients (cm : Common) (pk : Paths) (svc : Service) (w : World) :
    Service × Run :=
  let (svc, evLog) := initializeLoggingClient cm svc w.loggingPing
  let gate := checkDependencyServices cm svc w.data w.metadata w.schedule
  if !gate.returned then (svc, ⟨evLog ++ gate.trace, false⟩)
  else
    let (svc, evInit) := initializeClients cm pk svc
    let check := (checkClientsInitialSuccessful (w.listCalls.length + 1) w.listCalls).1
    if !check.returned then (svc, ⟨evLog ++ gate.trace ++ evInit ++ check.trace, false⟩)
    else
      (svc, ⟨evLog ++ gate.trace ++ evInit ++ check.trace ++
        [Event.info "Service clients initialize successful."], true⟩)

/-! ## Notions used in the statements -/

/-- One probe as `checkServiceAvailable` issues it for the selected discovery
mode: whether it reported healthy, and its events. -/
def probe (cm : Common) (svc : Service) (serviceId : String) (c : Cycle) : Bool × List Event :=
  if svc.useRegistry then
    checkServiceAvailableByConsul cm svc (svc.config.Clients serviceId).Name c
  else
    ((checkServiceAvailableByPing cm svc serviceId c.ping).1.isNone,
     (checkServiceAvailableByPing cm svc serviceId c.ping).2)

/-- Whether the GET ended in a timeout. -/
def GetResult.isTimeout : GetResult → Bool
  | .failure _ t => t
  | .response _ => false

/-- A cycle whose probe is a direct ping that timed out. -/
def pingTimeout (svc : Service) (c : Cycle) : Bool :=
  !svc.useRegistry && c.ping.isTimeout

/-- The event that opens a probe on the network: the GET of a direct ping, the
dial of a registry cycle. -/
def Event.isProbe : Event → Bool
  | .httpGet _ _ => true
  | .dial _ => true
  | _ => false

/-- Number of probes in a trace. -/
def probeCount (t : List Event) : Nat := t.countP Event.isProbe

/-- Seconds slept in a trace. -/
def sleepTotal : List Event → Nat
  | [] => 0
  | .sleep n :: t => n + sleepTotal t
  | _ :: t => sleepTotal t

/-- Registry client construction and the two registry queries. -/
def Event.isRegistryQuery : Event → Bool
  | .newConsulClient _ => true
  | .catalogService _ => true
  | .healthChecks _ => true
  | _ => false

/-- Construction of a resource client. -/
def Event.isNewClient : Event → Bool
  | .newClient _ _ => true
  | _ => false

/-- A list call through a resource client. -/
def Event.isListCall : Event → Bool
  | .listCall _ _ => true
  | _ => false

/-! ## Concrete configuration used in the examples -/

/-- Values of the `common` constants as the SDK declares them. -/
def demoCommon : Common :=
  { ClientData := "Data", ClientMetadata := "Metadata", APIPrefix := "/api/v1",
    V1Addressable := "/api/v1/addressable", V1Device := "/api/v1/device",
    V1DevService := "/api/v1/deviceservice", V1Event := "/api/v1/event",
    BuildAddr := fun host port => "http://" ++ host ++ ":" ++ port }

/-- Values of the package path constants. -/
def demoPaths : Paths :=
  { v1Deviceprofile := "/api/v1/deviceprofile", v1Schedule := "/api/v1/schedule",
    v1ScheduleEvent := "/api/v1/scheduleevent", v1Valuedescriptor := "/api/v1/valuedescriptor" }

/-- A service with two configured dependencies, a registry section with the
given host, and the given discovery flag. -/
def demoService (useRegistry : Bool) (registryHost : String) : Service :=
  { Name := "device-demo",
    config :=
      { Logging := { RemoteURL := "", File := "demo.log" },
        Clients := fun id =>
          if id = "Data" then { Name := "edgex-core-data", Host := "localhost", Port := 48080, Timeout := 5000 }
          else if id = "Metadata" then { Name := "edgex-core-metadata", Host := "localhost", Port := 48081, Timeout := 5000 }
          else { Name := "", Host := "", Port := 0, Timeout := 0 },
        Registry := { Host := registryHost, Port := 8500 } },
    useRegistry := useRegistry,
    lc := none, ac := none, dc := none, sc := none, dpc := none,
    scc := none, scec := none, ec := none, vdc := none }

/-- A cycle in which the ping GET has the given outcome and the registry is
healthy. -/
def pingCycle (g : GetResult) : Cycle :=
  { ping := g, dial := none, newClient := none, catalog := .ok 1, health := .ok "passing" }

/-- A cycle in which the registry cannot be dialled. -/
def registryDown : Cycle :=
  { ping := .response 200, dial := some "connection refused", newClient := none,
    catalog := .ok 1, health := .ok "passing" }

/-- A cycle in which the registry answers with the given instance count and
aggregated status. -/
def registryUp (instances : Nat) (status : String) : Cycle :=
  { ping := .response 200, dial := none, newClient := none,
    catalog := .ok instances, health := .ok status }

/-- A 2xx status code. -/
def is2xx (status : Nat) : Prop := 200 ≤ status ∧ status < 300

instance (status : Nat) : Decidable (is2xx status) := by
  unfold is2xx
  infer_instance

/-- Events of a run of consecutive unhealthy cycles: each probe, followed by
the 10-second sleep unless the probe is a direct ping that timed out. -/
def failedCycles (cm : Common) (svc : Service) (serviceId : String) : List Cycle → List Event
  | [] => []
  | f :: fs =>
    (probe cm svc serviceId f).2 ++ (if pingTimeout svc f then [] else [Event.sleep 10]) ++
      failedCycles cm svc serviceId fs

/-! ## Notions on the trace of the post-initialisation check -/

/-- The call of a failed list call, if the event is one. -/
def Event.failedCall : Event → Option ListCall
  | .listCall k (some _) => some k
  | _ => none

/-- A warning log line. -/
def Event.isWarn : Event → Bool
  | .warn _ => true
  | _ => false

/-- A list call whose kind satisfies `ok`. -/
def Event.isCallWith (ok : ListCall → Bool) : Event → Bool
  | .listCall k _ => ok k
  | _ => false

/-- What follows a failed list call: the warning, exactly one sleep of 2
seconds, and then either nothing yet (the run has got no further) or a list
call whose kind satisfies `ok`. -/
def waitThen (ok : ListCall → Bool) (t : List Event) : Bool :=
  match t with
  | e1 :: e2 :: rest =>
    e1.isWarn && decide (e2 = Event.sleep 2) &&
      (match rest with
       | [] => true
       | e3 :: _ => e3.isCallWith ok)
  | _ => false

/-- Every failed list call of the trace is followed by the warning, one sleep
of 2 seconds and then a call that `ok` allows after a failure of that call. -/
def afterEachFailure (ok : ListCall → ListCall → Bool) : List Event → Bool
  | [] => true
  | e :: rest =>
    (match e.failedCall with
     | some k => waitThen (ok k) rest
     | none => true) && afterEachFailure ok rest

/-- The retry rule as the specification words it: the call issued after a
failed call is the same call. -/
def sameCall (failed next : ListCall) : Bool := decide (next = failed)

/-- The retry rule of the code: the call issued after a failed call is
`Schedules`, whichever call failed. -/
def restartCall (_failed next : ListCall) : Bool := decide (next = ListCall.Schedules)

/-- Outcome of the most recent call of kind `k` in the trace. -/
def lastOutcome (k : ListCall) : List Event → Option (Option String)
  | [] => none
  | e :: rest =>
    match lastOutcome k rest with
    | some r => some r
    | none =>
      match e with
      | .listCall k2 r => if k2 = k then some r else none
      | _ => none

/-- No call of a kind is issued after a call of that kind has succeeded. -/
def noCallAfterSuccess : List Event → Bool
  | [] => true
  | e :: rest =>
    (match e with
     | .listCall k none => !(rest.any (Event.isCallWith (fun k2 => decide (k2 = k))))
     | _ => true) && noCallAfterSuccess rest

/-- The trace is empty or starts with a `Schedules` call. -/
def startsWithSchedules : List Event → Bool
  | [] => true
  | e :: _ => e.isCallWith (fun k => decide (k = ListCall.Schedules))

/-- The client field a construction event fills. -/
def Event.clientKind? : Event → Option ClientKind
  | .newClient k _ => some k
  | _ => none

/-- A run in direct-ping mode: the data dependency answers at once, the metadata
dependency refuses the first connection, both list calls succeed; the
scheduler lets the metadata branch move first. -/
def demoWorld : World :=
  { loggingPing := GetResult.response 200,
    data := [pingCycle (GetResult.response 200)],
    metadata := [pingCycle (GetResult.failure "connection refused" false),
                 pingCycle (GetResult.response 200)],
    schedule := [false, true],
    listCalls := [none, none] }

/-! ## Lemmas on the probes and the retry loop -/

theorem sleepTotal_append (a b : List Event) :
    sleepTotal (a ++ b) = sleepTotal a + sleepTotal b := by
  induction a with
  | nil => simp [sleepTotal]
  | cons e a ih => cases e <;> simp [sleepTotal, ih, Nat.add_assoc]

theorem probeCount_append (a b : List Event) :
    probeCount (a ++ b) = probeCount a + probeCount b := by
  simp [probeCount, List.countP_append]

theorem byPing_events (cm : Common) (svc : Service) (serviceId : String) (g : GetResult) :
    probeCount (checkServiceAvailableByPing cm svc serviceId g).2 = 1 ∧
    sleepTotal (checkServiceAvailableByPing cm svc serviceId g).2 = 0 ∧
    ∀ e ∈ (checkServiceAvailableByPing cm svc serviceId g).2,
      e.isRegistryQuery = false ∧ e.isNewClient = false ∧ e.isListCall = false := by
  cases g <;>
    simp [checkServiceAvailableByPing, GetResult.err, probeCount, sleepTotal, Event.isProbe,
      Event.isRegistryQuery, Event.isNewClient, Event.isListCall]

theorem byConsul_events (cm : Common) (svc : Service) (id : String) (c : Cycle) :
    probeCount (checkServiceAvailableByConsul cm svc id c).2 = 1 ∧
    sleepTotal (checkServiceAvailableByConsul cm svc id c).2 = 0 ∧
    ∀ e ∈ (checkServiceAvailableByConsul cm svc id c).2,
      e.isNewClient = false ∧ e.isListCall = false := by
  obtain ⟨ping, dial, newClient, catalog, health⟩ := c
  cases dial with
  | some d =>
    simp [checkServiceAvailableByConsul, checkConsulAvailable, probeCount, sleepTotal,
      Event.isProbe, Event.isNewClient, Event.isListCall]
  | none =>
    cases newClient with
    | some e =>
      simp [checkServiceAvailableByConsul, checkConsulAvailable, probeCount, sleepTotal,
        Event.isProbe, Event.isNewClient, Event.isListCall]
    | none =>
      cases catalog with
      | error e =>
        simp [checkServiceAvailableByConsul, checkConsulAvailable, probeCount, sleepTotal,
          Event.isProbe, Event.isNewClient, Event.isListCall]
      | ok n =>
        by_cases hn : n = 0
        · simp [checkServiceAvailableByConsul, checkConsulAvailable, probeCount, sleepTotal,
            Event.isProbe, Event.isNewClient, Event.isListCall, hn]
        · cases health with
          | error e =>
            simp [checkServiceAvailableByConsul, checkConsulAvailable, probeCount, sleepTotal,
              Event.isProbe, Event.isNewClient, Event.isListCall, hn]
          | ok status =>
            by_cases hs : status = "passing" <;>
            simp [checkServiceAvailableByConsul, checkConsulAvailable, probeCount, sleepTotal,
              Event.isProbe, Event.isNewClient, Event.isListCall, hn, hs]

theorem probe_events (cm : Common) (svc : Service) (serviceId : String) (c : Cycle) :
    probeCount (probe cm svc serviceId c).2 = 1 ∧
    sleepTotal (probe cm svc serviceId c).2 = 0 ∧
    ∀ e ∈ (probe cm svc serviceId c).2, e.isNewClient = false ∧ e.isListCall = false := by
  unfold probe
  split
  · exact byConsul_events cm svc _ c
  · obtain ⟨h1, h2, h3⟩ := byPing_events cm svc serviceId c.ping
    exact ⟨h1, h2, fun e he => (h3 e he).2⟩

/-- Unfolding of one cycle of `checkServiceAvailable`: a healthy probe returns,
an unhealthy one sleeps 10 seconds, unless it is a direct ping that timed out,
and runs the function again. -/
theorem checkServiceAvailable_cons (cm : Common) (svc : Service) (serviceId : String)
    (c : Cycle) (rest : List Cycle) :
    checkServiceAvailable cm svc serviceId (c :: rest) =
      if (probe cm svc serviceId c).1 then ⟨(probe cm svc serviceId c).2, true⟩
      else
        ⟨(probe cm svc serviceId c).2 ++
            (if pingTimeout svc c then [] else [Event.sleep 10]) ++
            (checkServiceAvailable cm svc serviceId rest).trace,
          (checkServiceAvailable cm svc serviceId rest).returned⟩ := by
  by_cases hr : svc.useRegistry = true
  · cases hp : checkServiceAvailableByConsul cm svc (svc.config.Clients serviceId).Name c with
    | mk ok ev =>
      cases ok <;> simp [checkServiceAvailable, probe, pingTimeout, hr, hp]
  · obtain ⟨ping, dial, newClient, catalog, health⟩ := c
    cases ping with
    | response st =>
      simp [checkServiceAvailable, probe, pingTimeout, hr, checkServiceAvailableByPing,
        GetResult.err]
    | failure msg t =>
      cases t <;>
      simp [checkServiceAvailable, probe, pingTimeout, hr, checkServiceAvailableByPing,
        GetResult.err, GetResult.isTimeout]

theorem checkServiceAvailable_head (cm : Common) (svc : Service) (serviceId : String)
    (c : Cycle) (rest : List Cycle) :
    ∃ tail, (checkServiceAvailable cm svc serviceId (c :: rest)).trace =
      (probe cm svc serviceId c).2 ++ tail := by
  rw [checkServiceAvailable_cons]
  split
  · exact ⟨[], by simp⟩
  · exact ⟨_, by simp only [List.append_assoc]; rfl⟩

/-- A script of unhealthy cycles followed by a healthy one: the run returns at
the healthy probe, having made one probe per cycle and slept 10 seconds after
each unhealthy probe that is not a direct-ping timeout. -/
theorem checkServiceAvailable_fails_then_healthy (cm : Common) (svc : Service)
    (serviceId : String) (fails : List Cycle) (c : Cycle) (rest : List Cycle)
    (hf : ∀ f ∈ fails, (probe cm svc serviceId f).1 = false)
    (hc : (probe cm svc serviceId c).1 = true) :
    (checkServiceAvailable cm svc serviceId (fails ++ c :: rest)).returned = true ∧
    probeCount (checkServiceAvailable cm svc serviceId (fails ++ c :: rest)).trace =
      fails.length + 1 ∧
    sleepTotal (checkServiceAvailable cm svc serviceId (fails ++ c :: rest)).trace =
      10 * fails.countP (fun f => !pingTimeout svc f) ∧
    (checkServiceAvailable cm svc serviceId (fails ++ c :: rest)).trace =
      failedCycles cm svc serviceId fails ++ (probe cm svc serviceId c).2 := by
  induction fails with
  | nil =>
    obtain ⟨h1, h2, _⟩ := probe_events cm svc serviceId c
    rw [List.nil_append, checkServiceAvailable_cons, if_pos hc]
    exact ⟨rfl, by simpa using h1, by simpa using h2, by simp [failedCycles]⟩
  | cons f fails ih =>
    have hf0 : (probe cm svc serviceId f).1 = false := hf f (List.mem_cons_self _ _)
    obtain ⟨i1, i2, i3, i4⟩ := ih (fun g hg => hf g (List.mem_cons_of_mem _ hg))
    obtain ⟨h1, h2, _⟩ := probe_events cm svc serviceId f
    have p0 : probeCount [Event.sleep 10] = 0 := rfl
    have p1 : probeCount ([] : List Event) = 0 := rfl
    have s0 : sleepTotal [Event.sleep 10] = 10 := rfl
    have s1 : sleepTotal ([] : List Event) = 0 := rfl
    rw [List.cons_append, checkServiceAvailable_cons, if_neg (by simp [hf0])]
    refine ⟨i1, ?_, ?_, ?_⟩
    · by_cases ht : pingTimeout svc f = true
      · simp only [ht, if_true, probeCount_append, h1, i2, p1, List.length_cons]; omega
      · simp only [ht, Bool.false_eq_true, if_false, probeCount_append, h1, i2, p0, List.length_cons]; omega
    · by_cases ht : pingTimeout svc f = true
      · simp only [ht, if_true, sleepTotal_append, h2, i3, s1, List.countP_cons]; simp
      · simp only [ht, Bool.false_eq_true, if_false, sleepTotal_append, h2, i3, s0, List.countP_cons]; simp; omega
    · simp only [i4, failedCycles, List.append_assoc]

/-- A script in which no probe is healthy: the run has not returned and has
made one probe per cycle. -/
theorem checkServiceAvailable_all_fail (cm : Common) (svc : Service)
    (serviceId : String) (script : List Cycle)
    (hf : ∀ f ∈ script, (probe cm svc serviceId f).1 = false) :
    (checkServiceAvailable cm svc serviceId script).returned = false ∧
    probeCount (checkServiceAvailable cm svc serviceId script).trace = script.length := by
  induction script with
  | nil => simp [checkServiceAvailable, probeCount]
  | cons f fails ih =>
    have hf0 : (probe cm svc serviceId f).1 = false := hf f (List.mem_cons_self _ _)
    obtain ⟨i1, i2⟩ := ih (fun g hg => hf g (List.mem_cons_of_mem _ hg))
    obtain ⟨h1, _, _⟩ := probe_events cm svc serviceId f
    have p0 : probeCount [Event.sleep 10] = 0 := rfl
    have p1 : probeCount ([] : List Event) = 0 := rfl
    rw [checkServiceAvailable_cons, if_neg (by simp [hf0])]
    refine ⟨i1, ?_⟩
    by_cases ht : pingTimeout svc f = true
    · simp only [ht, if_true, probeCount_append, h1, i2, p1, List.length_cons]; omega
    · simp only [ht, Bool.false_eq_true, if_false, probeCount_append, h1, i2, p0, List.length_cons]; omega

/-- A run that returned went through unhealthy cycles up to a first healthy
one. -/
theorem checkServiceAvailable_returned_split (cm : Common) (svc : Service)
    (serviceId : String) (script : List Cycle)
    (h : (checkServiceAvailable cm svc serviceId script).returned = true) :
    ∃ fails c rest, script = fails ++ c :: rest ∧
      (∀ f ∈ fails, (probe cm svc serviceId f).1 = false) ∧
      (probe cm svc serviceId c).1 = true := by
  induction script with
  | nil => simp [checkServiceAvailable] at h
  | cons f script ih =>
    by_cases hp : (probe cm svc serviceId f).1 = true
    · exact ⟨[], f, script, rfl, by simp, hp⟩
    · have hp0 : (probe cm svc serviceId f).1 = false := by simpa using hp
      rw [checkServiceAvailable_cons, if_neg (by simp [hp0])] at h
      obtain ⟨fails, c, rest, e, h1, h2⟩ := ih h
      refine ⟨f :: fails, c, rest, by rw [e]; rfl, ?_, h2⟩
      intro g hg
      rcases List.mem_cons.mp hg with rfl | hg
      · exact hp0
      · exact h1 g hg

/-- The retry loop constructs no resource client and issues no list call. -/
theorem checkServiceAvailable_events (cm : Common) (svc : Service)
    (serviceId : String) (script : List Cycle) :
    ∀ e ∈ (checkServiceAvailable cm svc serviceId script).trace,
      e.isNewClient = false ∧ e.isListCall = false := by
  induction script with
  | nil => simp [checkServiceAvailable]
  | cons f script ih =>
    obtain ⟨_, _, h3⟩ := probe_events cm svc serviceId f
    rw [checkServiceAvailable_cons]
    split
    · exact h3
    · intro e he
      simp only [List.mem_append] at he
      rcases he with (he | he) | he
      · exact h3 e he
      · split at he
        · simp at he
        · simp only [List.mem_singleton] at he
          subst he
          exact ⟨rfl, rfl⟩
      · exact ih e he

/-! ## Direct-ping probe -/

/-- C1, as stated, fails: a response with status 500 makes
`checkServiceAvailableByPing` return no error, so the probe reports healthy
and `checkServiceAvailable` returns after this single probe, although 500 is
not a 2xx status. -/
theorem byPing_status_500_reports_healthy :
    ¬ ((checkServiceAvailableByPing demoCommon (demoService false "") "Data"
          (GetResult.response 500)).1 = none ↔ is2xx 500) ∧
    checkServiceAvailable demoCommon (demoService false "") "Data"
        [pingCycle (GetResult.response 500)] =
      ⟨(checkServiceAvailableByPing demoCommon (demoService false "") "Data"
          (GetResult.response 500)).2, true⟩ := by
  decide

/-- C1, amended: in direct-ping mode `checkServiceAvailableByPing` returns no
error exactly when the GET yields a response, whatever its status; then
`checkServiceAvailable` returns after that probe.  A transport failure or a
timeout is returned as an error, and `checkServiceAvailable` then probes
again: the events of the next probe follow, separated by nothing but waits of
10 seconds. -/
theorem byPing_healthy_iff_response (cm : Common) (svc : Service) (serviceId : String)
    (c : Cycle) (hmode : svc.useRegistry = false) :
    ((checkServiceAvailableByPing cm svc serviceId c.ping).1 = none ↔
      ∃ status, c.ping = GetResult.response status) ∧
    ((checkServiceAvailableByPing cm svc serviceId c.ping).1 = none →
      ∀ rest, checkServiceAvailable cm svc serviceId (c :: rest) =
        ⟨(checkServiceAvailableByPing cm svc serviceId c.ping).2, true⟩) ∧
    ((checkServiceAvailableByPing cm svc serviceId c.ping).1 ≠ none →
      ∀ next rest, ∃ wait tail,
        (checkServiceAvailable cm svc serviceId (c :: next :: rest)).trace =
          (checkServiceAvailableByPing cm svc serviceId c.ping).2 ++ wait ++
            (checkServiceAvailableByPing cm svc serviceId next.ping).2 ++ tail ∧
        ∀ e ∈ wait, e = Event.sleep 10) := by
  have hp : ∀ d : Cycle, probe cm svc serviceId d =
      ((checkServiceAvailableByPing cm svc serviceId d.ping).1.isNone,
       (checkServiceAvailableByPing cm svc serviceId d.ping).2) := by
    intro d
    simp [probe, hmode]
  refine ⟨?_, ?_, ?_⟩
  · cases hg : c.ping with
    | response st => simp [checkServiceAvailableByPing, GetResult.err]
    | failure msg t => simp [checkServiceAvailableByPing, GetResult.err]
  · intro h rest
    rw [checkServiceAvailable_cons, if_pos (by rw [hp]; simp [h]), hp]
  · intro h next rest
    obtain ⟨tail, ht⟩ := checkServiceAvailable_head cm svc serviceId next rest
    have hne : ¬ (probe cm svc serviceId c).1 = true := by
      rw [hp]
      cases hx : (checkServiceAvailableByPing cm svc serviceId c.ping).1 with
      | none => exact absurd hx h
      | some e => simp
    rw [checkServiceAvailable_cons, if_neg hne, ht, hp, hp]
    refine ⟨if pingTimeout svc c then [] else [Event.sleep 10], tail, ?_, ?_⟩
    · simp only [List.append_assoc]
    · intro e he
      split at he
      · simp at he
      · simpa using he

/-- Instance of the amended C1: a 404 response is reported healthy, and a
failure followed by another cycle is probed again. -/
theorem byPing_healthy_iff_response_witness :
    ((checkServiceAvailableByPing demoCommon (demoService false "") "Data"
        (pingCycle (GetResult.response 404)).ping).1 = none ↔
      ∃ status, (pingCycle (GetResult.response 404)).ping = GetResult.response status) ∧
    ((checkServiceAvailableByPing demoCommon (demoService false "") "Data"
        (pingCycle (GetResult.response 404)).ping).1 = none →
      ∀ rest, checkServiceAvailable demoCommon (demoService false "") "Data"
          (pingCycle (GetResult.response 404) :: rest) =
        ⟨(checkServiceAvailableByPing demoCommon (demoService false "") "Data"
          (pingCycle (GetResult.response 404)).ping).2, true⟩) ∧
    ((checkServiceAvailableByPing demoCommon (demoService false "") "Data"
        (pingCycle (GetResult.response 404)).ping).1 ≠ none →
      ∀ next rest, ∃ wait tail,
        (checkServiceAvailable demoCommon (demoService false "") "Data"
          (pingCycle (GetResult.response 404) :: next :: rest)).trace =
          (checkServiceAvailableByPing demoCommon (demoService false "") "Data"
            (pingCycle (GetResult.response 404)).ping).2 ++ wait ++
            (checkServiceAvailableByPing demoCommon (demoService false "") "Data"
              next.ping).2 ++ tail ∧
        ∀ e ∈ wait, e = Event.sleep 10) :=
  byPing_healthy_iff_response demoCommon (demoService false "") "Data"
    (pingCycle (GetResult.response 404)) rfl

/-! ## Retry delay -/

/-- C2, as stated, fails: in direct-ping mode a probe that times out is
followed by the next probe with no wait, so a branch that failed once before
succeeding has slept 0 seconds, not 10. -/
theorem ping_timeout_retries_without_wait :
    (checkServiceAvailable demoCommon (demoService false "") "Data"
      [pingCycle (GetResult.failure "Client.Timeout exceeded" true),
       pingCycle (GetResult.response 200)]).returned = true ∧
    probeCount (checkServiceAvailable demoCommon (demoService false "") "Data"
      [pingCycle (GetResult.failure "Client.Timeout exceeded" true),
       pingCycle (GetResult.response 200)]).trace = 2 ∧
    sleepTotal (checkServiceAvailable demoCommon (demoService false "") "Data"
      [pingCycle (GetResult.failure "Client.Timeout exceeded" true),
       pingCycle (GetResult.response 200)]).trace = 0 ∧
    ¬ sleepTotal (checkServiceAvailable demoCommon (demoService false "") "Data"
      [pingCycle (GetResult.failure "Client.Timeout exceeded" true),
       pingCycle (GetResult.response 200)]).trace = 10 * 1 := by
  decide

/-- C2, amended: after every unhealthy probe other than a direct ping that
timed out, `checkServiceAvailable` waits exactly one delay of 10 seconds
before its next probe, in both discovery modes; after a direct ping that timed
out it probes again with no wait.  The probe itself never sleeps.  So a branch
that fails on the cycles `fails` and then succeeds has slept 10 seconds for
each failed cycle that is not a direct-ping timeout: `10 * fails.length` in
registry mode. -/
theorem retry_waits_ten_seconds_except_ping_timeout (cm : Common) (svc : Service)
    (serviceId : String) (fails : List Cycle) (c : Cycle) (rest : List Cycle)
    (hf : ∀ f ∈ fails, (probe cm svc serviceId f).1 = false)
    (hc : (probe cm svc serviceId c).1 = true) :
    (∀ f tail, (probe cm svc serviceId f).1 = false →
      (checkServiceAvailable cm svc serviceId (f :: tail)).trace =
        (probe cm svc serviceId f).2 ++
          (if pingTimeout svc f then [] else [Event.sleep 10]) ++
          (checkServiceAvailable cm svc serviceId tail).trace ∧
      sleepTotal (probe cm svc serviceId f).2 = 0) ∧
    (checkServiceAvailable cm svc serviceId (fails ++ c :: rest)).returned = true ∧
    sleepTotal (checkServiceAvailable cm svc serviceId (fails ++ c :: rest)).trace =
      10 * fails.countP (fun f => !pingTimeout svc f) ∧
    (svc.useRegistry = true →
      sleepTotal (checkServiceAvailable cm svc serviceId (fails ++ c :: rest)).trace =
        10 * fails.length) := by
  obtain ⟨h1, _, h3, _⟩ := checkServiceAvailable_fails_then_healthy cm svc serviceId fails c rest hf hc
  refine ⟨?_, h1, h3, ?_⟩
  · intro f tail hfail
    rw [checkServiceAvailable_cons, if_neg (by simp [hfail])]
    exact ⟨rfl, (probe_events cm svc serviceId f).2.1⟩
  · intro hreg
    rw [h3]
    have : (fun f => !pingTimeout svc f) = fun _ => true := by
      funext f
      simp [pingTimeout, hreg]
    rw [this]
    simp

/-- Instance of the amended C2: a direct-ping branch that meets a timeout, then
a refused connection, then a response has slept 10 seconds in all. -/
theorem retry_waits_ten_seconds_except_ping_timeout_witness :
    sleepTotal (checkServiceAvailable demoCommon (demoService false "") "Data"
      ([pingCycle (GetResult.failure "Client.Timeout exceeded" true),
        pingCycle (GetResult.failure "connection refused" false)] ++
        pingCycle (GetResult.response 200) :: [])).trace = 10 :=
  (retry_waits_ten_seconds_except_ping_timeout demoCommon (demoService false "") "Data"
    [pingCycle (GetResult.failure "Client.Timeout exceeded" true),
     pingCycle (GetResult.failure "connection refused" false)]
    (pingCycle (GetResult.response 200)) []
    (by decide) (by decide)).2.2.1

/-! ## Registry probe -/

theorem string_append_left_cancel (s a b : String) (h : s ++ a = s ++ b) : a = b := by
  have h1 : (s ++ a).data = (s ++ b).data := by rw [h]
  rw [String.data_append, String.data_append] at h1
  exact String.ext (List.append_cancel_left h1)

/-- C3: `checkServiceAvailableByConsul` returns true exactly when the dial
succeeds, the client is constructed, the catalog query succeeds with at least
one instance, the health query succeeds and the aggregated status is the
string "passing".  An empty catalog result gives false, ends with the log line
"... service hasn't started..." and issues no health query; a status other
than "passing" gives false and ends with the log line
"... service hasn't been available..."; the two lines differ. -/
theorem byConsul_true_iff_passing (cm : Common) (svc : Service) (id : String) (c : Cycle) :
    ((checkServiceAvailableByConsul cm svc id c).1 = true ↔
      c.dial = none ∧ c.newClient = none ∧ (∃ n, c.catalog = Except.ok n ∧ 0 < n) ∧
        c.health = Except.ok "passing") ∧
    (c.dial = none → c.newClient = none → c.catalog = Except.ok 0 →
      (checkServiceAvailableByConsul cm svc id c).1 = false ∧
      (checkServiceAvailableByConsul cm svc id c).2.getLast? =
        some (Event.error (id ++ " service hasn't started...")) ∧
      Event.healthChecks id ∉ (checkServiceAvailableByConsul cm svc id c).2) ∧
    (∀ n status, c.dial = none → c.newClient = none → c.catalog = Except.ok n → 0 < n →
      c.health = Except.ok status → status ≠ "passing" →
      (checkServiceAvailableByConsul cm svc id c).1 = false ∧
      (checkServiceAvailableByConsul cm svc id c).2.getLast? =
        some (Event.error (id ++ " service hasn't been available..."))) ∧
    id ++ " service hasn't started..." ≠ id ++ " service hasn't been available..." := by
  obtain ⟨ping, dial, newClient, catalog, health⟩ := c
  refine ⟨?_, ?_, ?_, ?_⟩
  · cases dial with
    | some d => simp [checkServiceAvailableByConsul, checkConsulAvailable]
    | none =>
      cases newClient with
      | some e => simp [checkServiceAvailableByConsul, checkConsulAvailable]
      | none =>
        cases catalog with
        | error e => simp [checkServiceAvailableByConsul, checkConsulAvailable]
        | ok n =>
          by_cases hn : n = 0
          · simp [checkServiceAvailableByConsul, checkConsulAvailable, hn]
          · have hpos : 0 < n := Nat.pos_of_ne_zero hn
            cases health with
            | error e => simp [checkServiceAvailableByConsul, checkConsulAvailable, hn]
            | ok status =>
              by_cases hs : status = "passing"
              · simp [checkServiceAvailableByConsul, checkConsulAvailable, hn, hs, hpos]
              · simp [checkServiceAvailableByConsul, checkConsulAvailable, hn, hs]
  · intro h1 h2 h3
    simp only at h1 h2 h3
    subst h1 h2 h3
    simp [checkServiceAvailableByConsul, checkConsulAvailable]
  · intro n status h1 h2 h3 hn h4 hs
    simp only at h1 h2 h3 h4
    subst h1 h2 h3 h4
    have hn0 : n ≠ 0 := Nat.pos_iff_ne_zero.mp hn
    simp [checkServiceAvailableByConsul, checkConsulAvailable, hn0, hs]
  · intro h
    have := string_append_left_cancel _ _ _ h
    revert this
    decide

/-- Instance of C3: a registered service whose aggregated status is "warning"
is not healthy, and an unregistered one is not either. -/
theorem byConsul_true_iff_passing_witness :
    ((checkServiceAvailableByConsul demoCommon (demoService true "consul") "edgex-core-data"
        (registryUp 1 "warning")).1 = false ∧
      (checkServiceAvailableByConsul demoCommon (demoService true "consul") "edgex-core-data"
        (registryUp 1 "warning")).2.getLast? =
        some (Event.error ("edgex-core-data" ++ " service hasn't been available..."))) ∧
    ((checkServiceAvailableByConsul demoCommon (demoService true "consul") "edgex-core-data"
        (registryUp 0 "passing")).1 = false ∧
      (checkServiceAvailableByConsul demoCommon (demoService true "consul") "edgex-core-data"
        (registryUp 0 "passing")).2.getLast? =
        some (Event.error ("edgex-core-data" ++ " service hasn't started...")) ∧
      Event.healthChecks "edgex-core-data" ∉
        (checkServiceAvailableByConsul demoCommon (demoService true "consul") "edgex-core-data"
          (registryUp 0 "passing")).2) :=
  ⟨(byConsul_true_iff_passing demoCommon (demoService true "consul") "edgex-core-data"
      (registryUp 1 "warning")).2.2.1 1 "warning" rfl rfl rfl (by decide) rfl (by decide),
   (byConsul_true_iff_passing demoCommon (demoService true "consul") "edgex-core-data"
      (registryUp 0 "passing")).2.1 rfl rfl rfl⟩

/-! ## The gate returns only after healthy probes -/

/-- C4: `checkServiceAvailable` returns only after a probe of its dependency
reported healthy, and `checkDependencyServices` returns exactly when the
branches of the data and of the metadata dependency have both returned.  If
the first healthy probe is the one after the `k` cycles `fails`, the branch
returns with exactly `k + 1` probes, its trace ending with that probe; a
script with no healthy probe among its `M` cycles leaves the branch, and so
the gate, not returned after `M` probes; a run has either returned or met only
unhealthy probes, there is no third result. -/
theorem gate_returns_only_after_healthy (cm : Common) (svc : Service) :
    (∀ serviceId fails c rest,
      (∀ f ∈ fails, (probe cm svc serviceId f).1 = false) →
      (probe cm svc serviceId c).1 = true →
      (checkServiceAvailable cm svc serviceId (fails ++ c :: rest)).returned = true ∧
      probeCount (checkServiceAvailable cm svc serviceId (fails ++ c :: rest)).trace =
        fails.length + 1 ∧
      (checkServiceAvailable cm svc serviceId (fails ++ c :: rest)).trace =
        failedCycles cm svc serviceId fails ++ (probe cm svc serviceId c).2) ∧
    (∀ serviceId script,
      (∀ f ∈ script, (probe cm svc serviceId f).1 = false) →
      (checkServiceAvailable cm svc serviceId script).returned = false ∧
      probeCount (checkServiceAvailable cm svc serviceId script).trace = script.length) ∧
    (∀ serviceId script,
      (checkServiceAvailable cm svc serviceId script).returned = true →
      ∃ fails c rest, script = fails ++ c :: rest ∧
        (∀ f ∈ fails, (probe cm svc serviceId f).1 = false) ∧
        (probe cm svc serviceId c).1 = true) ∧
    (∀ serviceId script,
      (checkServiceAvailable cm svc serviceId script).returned = true ∨
      ∀ f ∈ script, (probe cm svc serviceId f).1 = false) ∧
    (∀ data metadata schedule,
      ((checkDependencyServices cm svc data metadata schedule).returned = true ↔
        (checkServiceAvailable cm svc cm.ClientData data).returned = true ∧
        (checkServiceAvailable cm svc cm.ClientMetadata metadata).returned = true)) ∧
    (∀ data metadata schedule,
      ((∀ f ∈ data, (probe cm svc cm.ClientData f).1 = false) ∨
        (∀ f ∈ metadata, (probe cm svc cm.ClientMetadata f).1 = false)) →
      (checkDependencyServices cm svc data metadata schedule).returned = false) := by
  refine ⟨?_, ?_, ?_, ?_, ?_, ?_⟩
  · intro serviceId fails c rest hf hc
    obtain ⟨h1, h2, _, h4⟩ :=
      checkServiceAvailable_fails_then_healthy cm svc serviceId fails c rest hf hc
    exact ⟨h1, h2, h4⟩
  · intro serviceId script hf
    exact checkServiceAvailable_all_fail cm svc serviceId script hf
  · intro serviceId script h
    exact checkServiceAvailable_returned_split cm svc serviceId script h
  · intro serviceId script
    by_cases hall : ∀ f ∈ script, (probe cm svc serviceId f).1 = false
    · exact Or.inr hall
    · left
      induction script with
      | nil => simp at hall
      | cons f script ih =>
        rw [checkServiceAvailable_cons]
        by_cases hp : (probe cm svc serviceId f).1 = true
        · rw [if_pos hp]
        · rw [if_neg hp]
          apply ih
          intro hrest
          apply hall
          intro g hg
          rcases List.mem_cons.mp hg with rfl | hg
          · simpa using hp
          · exact hrest g hg
  · intro data metadata schedule
    simp [checkDependencyServices]
  · intro data metadata schedule h
    rcases h with h | h
    · have := (checkServiceAvailable_all_fail cm svc cm.ClientData data h).1
      simp [checkDependencyServices, this]
    · have := (checkServiceAvailable_all_fail cm svc cm.ClientMetadata metadata h).1
      simp [checkDependencyServices, this]

/-- Instance of C4: in direct-ping mode, three failed probes and then a healthy
one make the branch return with exactly four probes; with the data dependency
healthy at once the gate returns, and with only the three failures it has
not. -/
theorem gate_returns_only_after_healthy_witness :
    ((checkServiceAvailable demoCommon (demoService false "") "Metadata"
        ([pingCycle (GetResult.failure "connection refused" false),
          pingCycle (GetResult.failure "connection refused" false),
          pingCycle (GetResult.failure "connection refused" false)] ++
          pingCycle (GetResult.response 200) :: [])).returned = true ∧
      probeCount (checkServiceAvailable demoCommon (demoService false "") "Metadata"
        ([pingCycle (GetResult.failure "connection refused" false),
          pingCycle (GetResult.failure "connection refused" false),
          pingCycle (GetResult.failure "connection refused" false)] ++
          pingCycle (GetResult.response 200) :: [])).trace = 3 + 1) ∧
    (checkDependencyServices demoCommon (demoService false "")
        [pingCycle (GetResult.response 200)]
        [pingCycle (GetResult.failure "connection refused" false),
         pingCycle (GetResult.failure "connection refused" false),
         pingCycle (GetResult.failure "connection refused" false)]
        [true, false]).returned = false :=
  ⟨⟨((gate_returns_only_after_healthy demoCommon (demoService false "")).1 "Metadata"
        [pingCycle (GetResult.failure "connection refused" false),
          pingCycle (GetResult.failure "connection refused" false),
          pingCycle (GetResult.failure "connection refused" false)]
        (pingCycle (GetResult.response 200)) [] (by decide) (by decide)).1,
    ((gate_returns_only_after_healthy demoCommon (demoService false "")).1 "Metadata"
        [pingCycle (GetResult.failure "connection refused" false),
          pingCycle (GetResult.failure "connection refused" false),
          pingCycle (GetResult.failure "connection refused" false)]
        (pingCycle (GetResult.response 200)) [] (by decide) (by decide)).2.1⟩,
   (gate_returns_only_after_healthy demoCommon (demoService false "")).2.2.2.2.2
      [pingCycle (GetResult.response 200)]
      [pingCycle (GetResult.failure "connection refused" false),
       pingCycle (GetResult.failure "connection refused" false),
       pingCycle (GetResult.failure "connection refused" false)]
      [true, false] (Or.inr (by decide))⟩

/-! ## Registry unreachable -/

theorem failedCycles_registry_down (cm : Common) (svc : Service) (serviceId : String)
    (down : List Cycle) (hreg : svc.useRegistry = true) (hd : ∀ c ∈ down, c.dial ≠ none) :
    (∀ e ∈ failedCycles cm svc serviceId down, e.isRegistryQuery = false) ∧
    probeCount (failedCycles cm svc serviceId down) = down.length ∧
    ∀ c ∈ down, (probe cm svc serviceId c).1 = false := by
  induction down with
  | nil => simp [failedCycles, probeCount]
  | cons f down ih =>
    obtain ⟨i1, i2, i3⟩ := ih (fun g hg => hd g (List.mem_cons_of_mem _ hg))
    have hfd := hd f (List.mem_cons_self _ _)
    obtain ⟨ping, dial, newClient, catalog, health⟩ := f
    cases dial with
    | none => exact absurd rfl hfd
    | some d =>
      refine ⟨?_, ?_, ?_⟩
      · intro e he
        simp only [failedCycles, List.mem_append] at he
        rcases he with (he | he) | he
        · simp [probe, hreg, checkServiceAvailableByConsul, checkConsulAvailable] at he
          rcases he with rfl | rfl | rfl <;> rfl
        · simp [pingTimeout, hreg] at he
          subst he
          rfl
        · exact i1 e he
      · simp only [failedCycles, probeCount_append, i2, List.length_cons]
        simp [probe, pingTimeout, hreg, checkServiceAvailableByConsul, checkConsulAvailable,
          probeCount, Event.isProbe]
        omega
      · intro c hc
        rcases List.mem_cons.mp hc with rfl | hc
        · simp [probe, hreg, checkServiceAvailableByConsul, checkConsulAvailable]
        · exact i3 c hc

/-- C5: a registry cycle whose reachability dial fails returns false having
constructed no registry client and issued no catalog or health query.  With
the registry unreachable during the `n` cycles `down` and then reachable with
status "passing", `checkServiceAvailable` returns; its trace is the `n` failed
cycles, holding `n` probes and no registry query, followed by the events of
cycle `n + 1`, where the catalog query is issued. -/
theorem registry_down_skips_queries (cm : Common) (svc : Service) (hreg : svc.useRegistry = true) :
    (∀ id c, c.dial ≠ none →
      (checkServiceAvailableByConsul cm svc id c).1 = false ∧
      ∀ e ∈ (checkServiceAvailableByConsul cm svc id c).2, e.isRegistryQuery = false) ∧
    (∀ serviceId down up rest n,
      (∀ c ∈ down, c.dial ≠ none) →
      up.dial = none → up.newClient = none → up.catalog = Except.ok n → 0 < n →
      up.health = Except.ok "passing" →
      (checkServiceAvailable cm svc serviceId (down ++ up :: rest)).returned = true ∧
      (checkServiceAvailable cm svc serviceId (down ++ up :: rest)).trace =
        failedCycles cm svc serviceId down ++
          (checkServiceAvailableByConsul cm svc (svc.config.Clients serviceId).Name up).2 ∧
      (∀ e ∈ failedCycles cm svc serviceId down, e.isRegistryQuery = false) ∧
      probeCount (failedCycles cm svc serviceId down) = down.length ∧
      Event.catalogService (svc.config.Clients serviceId).Name ∈
        (checkServiceAvailableByConsul cm svc (svc.config.Clients serviceId).Name up).2) := by
  refine ⟨?_, ?_⟩
  · intro id c hc
    obtain ⟨ping, dial, newClient, catalog, health⟩ := c
    cases dial with
    | none => exact absurd rfl hc
    | some d =>
      simp [checkServiceAvailableByConsul, checkConsulAvailable, Event.isRegistryQuery]
  · intro serviceId down up rest n hd h1 h2 h3 hn h4
    obtain ⟨d1, d2, d3⟩ := failedCycles_registry_down cm svc serviceId down hreg hd
    have hn0 : n ≠ 0 := Nat.pos_iff_ne_zero.mp hn
    obtain ⟨ping, dial, newClient, catalog, health⟩ := up
    simp only at h1 h2 h3 h4
    subst h1 h2 h3 h4
    have hup : (probe cm svc serviceId ⟨ping, none, none, Except.ok n, Except.ok "passing"⟩).1
        = true := by
      simp [probe, hreg, checkServiceAvailableByConsul, checkConsulAvailable, hn0]
    obtain ⟨r1, _, _, r4⟩ :=
      checkServiceAvailable_fails_then_healthy cm svc serviceId down _ rest d3 hup
    refine ⟨r1, ?_, d1, d2, ?_⟩
    · rw [r4]
      simp [probe, hreg]
    · simp [checkServiceAvailableByConsul, checkConsulAvailable, hn0]

/-- Instance of C5: the registry is down for two cycles and then up with
status "passing"; the branch returns and the two failed cycles hold two probes. -/
theorem registry_down_skips_queries_witness :
    (checkServiceAvailable demoCommon (demoService true "consul") "Data"
      ([registryDown, registryDown] ++ registryUp 1 "passing" :: [])).returned = true ∧
    probeCount (failedCycles demoCommon (demoService true "consul") "Data"
      [registryDown, registryDown]) = 2 :=
  ⟨((registry_down_skips_queries demoCommon (demoService true "consul") rfl).2 "Data"
      [registryDown, registryDown] (registryUp 1 "passing") [] 1
      (by decide) rfl rfl rfl (by decide) rfl).1,
   ((registry_down_skips_queries demoCommon (demoService true "consul") rfl).2 "Data"
      [registryDown, registryDown] (registryUp 1 "passing") [] 1
      (by decide) rfl rfl rfl (by decide) rfl).2.2.2.1⟩

/-! ## Lemmas on the post-initialisation check -/

theorem waitThen_append (ok : ListCall → Bool) (t b : List Event) (k : ListCall)
    (h : waitThen ok t = true) (hl : t.getLast? = some (Event.listCall k none)) :
    waitThen ok (t ++ b) = true := by
  match t, h, hl with
  | [], h, _ => simp [waitThen] at h
  | [_], h, _ => simp [waitThen] at h
  | [e1, e2], h, hl =>
    simp [waitThen] at h
    simp at hl
    rw [hl] at h
    simp at h
  | e1 :: e2 :: e3 :: rest, h, _ =>
    simpa [waitThen] using h

theorem afterEachFailure_cons (ok : ListCall → ListCall → Bool) (e : Event)
    (rest : List Event) :
    afterEachFailure ok (e :: rest) =
      ((match e.failedCall with
        | some k => waitThen (ok k) rest
        | none => true) && afterEachFailure ok rest) := rfl

theorem afterEachFailure_append (ok : ListCall → ListCall → Bool) (a b : List Event)
    (k : ListCall) (ha : afterEachFailure ok a = true) (hb : afterEachFailure ok b = true)
    (hl : a.getLast? = some (Event.listCall k none)) :
    afterEachFailure ok (a ++ b) = true := by
  induction a with
  | nil => simp at hl
  | cons e rest ih =>
    rw [afterEachFailure_cons, Bool.and_eq_true] at ha
    obtain ⟨h1, h2⟩ := ha
    cases rest with
    | nil =>
      simp at hl
      subst hl
      rw [List.singleton_append, afterEachFailure_cons]
      simpa [Event.failedCall] using hb
    | cons e2 rest2 =>
      have hl2 : (e2 :: rest2).getLast? = some (Event.listCall k none) := by
        simpa [List.getLast?_cons_cons] using hl
      rw [List.cons_append, afterEachFailure_cons, Bool.and_eq_true]
      refine ⟨?_, ih h2 hl2⟩
      cases hf : e.failedCall with
      | none => rfl
      | some k2 =>
        rw [hf] at h1
        exact waitThen_append (ok k2) (e2 :: rest2) b k h1 hl2

theorem afterEachFailure_block (t : List Event) (k : ListCall) (e m : String)
    (hs : startsWithSchedules t = true) (ht : afterEachFailure restartCall t = true) :
    afterEachFailure restartCall
      (Event.listCall k (some e) :: Event.warn m :: Event.sleep 2 :: t) = true := by
  rw [afterEachFailure_cons, afterEachFailure_cons, afterEachFailure_cons]
  cases t with
  | nil => simp [Event.failedCall, waitThen, Event.isWarn, ht]
  | cons e3 rest =>
    have hrk : Event.isCallWith (restartCall k) e3 = true := hs
    simp [Event.failedCall, waitThen, Event.isWarn, ht, hrk]

theorem lastOutcome_cons (k : ListCall) (e : Event) (rest : List Event) :
    lastOutcome k (e :: rest) =
      match lastOutcome k rest with
      | some r => some r
      | none =>
        match e with
        | .listCall k2 r => if k2 = k then some r else none
        | _ => none := rfl

theorem lastOutcome_append (k : ListCall) (a b : List Event) :
    lastOutcome k (a ++ b) =
      match lastOutcome k b with
      | some r => some r
      | none => lastOutcome k a := by
  induction a with
  | nil => cases h : lastOutcome k b <;> simp [lastOutcome, h]
  | cons e rest ih =>
    rw [List.cons_append, lastOutcome_cons, lastOutcome_cons, ih]
    cases lastOutcome k b <;> cases lastOutcome k rest <;> rfl

theorem startsWithSchedules_append (a b : List Event) (hne : a ≠ [])
    (hs : startsWithSchedules a = true) : startsWithSchedules (a ++ b) = true := by
  cases a with
  | nil => exact absurd rfl hne
  | cons e rest => simpa [startsWithSchedules] using hs

/-- Shape of every trace of `checkClientsInitialSuccessful`: it starts with a
`Schedules` call; each failed call is followed by the warning, one sleep of 2
seconds and a `Schedules` call; a run that returned ends with a successful
`ScheduleEvents` call, and its most recent call of each kind succeeded. -/
theorem checkClients_shape (fuel : Nat) : ∀ script : List (Option String),
    afterEachFailure restartCall (checkClientsInitialSuccessful fuel script).1.trace = true ∧
    startsWithSchedules (checkClientsInitialSuccessful fuel script).1.trace = true ∧
    ((checkClientsInitialSuccessful fuel script).1.returned = true →
      (checkClientsInitialSuccessful fuel script).1.trace.getLast? =
        some (Event.listCall ListCall.ScheduleEvents none) ∧
      lastOutcome ListCall.Schedules (checkClientsInitialSuccessful fuel script).1.trace =
        some none ∧
      lastOutcome ListCall.ScheduleEvents (checkClientsInitialSuccessful fuel script).1.trace =
        some none) := by
  induction fuel with
  | zero =>
    intro script
    simp [checkClientsInitialSuccessful, afterEachFailure, startsWithSchedules]
  | succ fuel ih =>
    intro script
    cases script with
    | nil => simp [checkClientsInitialSuccessful, afterEachFailure, startsWithSchedules]
    | cons err1 s1 =>
      cases err1 with
      | none =>
        simp only [checkClientsInitialSuccessful, Bool.not_true, Bool.false_eq_true, if_false]
        cases s1 with
        | nil =>
          simp [afterEachFailure, startsWithSchedules, Event.failedCall, Event.isCallWith]
        | cons err2 s2 =>
          cases err2 with
          | none =>
            simp [afterEachFailure, startsWithSchedules, Event.failedCall, Event.isCallWith,
              lastOutcome]
          | some e2 =>
            obtain ⟨i1, i2, i3⟩ := ih s2
            have hb := afterEachFailure_block _ ListCall.ScheduleEvents e2
              ("Metadata.scheduleEvent has not been initialized yet... Error: " ++ e2 ++
                " . Wait a seconds.") i2 i1
            refine ⟨?_, ?_, ?_⟩
            · simpa [afterEachFailure_cons, Event.failedCall] using hb
            · simp [startsWithSchedules, Event.isCallWith]
            · intro hr
              obtain ⟨j1, j2, j3⟩ := i3 (by simpa using hr)
              have hne : (checkClientsInitialSuccessful fuel s2).1.trace ≠ [] := by
                intro h0
                rw [h0] at j1
                simp at j1
              refine ⟨?_, ?_, ?_⟩
              · simp only [List.getLast?_append, j1]
                rfl
              · simp only [lastOutcome_append, j2]
              · simp only [lastOutcome_append, j3]
      | some e1 =>
        obtain ⟨i1, i2, i3⟩ := ih s1
        have hblock : ∀ t : List Event, startsWithSchedules t = true →
            afterEachFailure restartCall t = true →
            afterEachFailure restartCall
              ([Event.listCall ListCall.Schedules (some e1),
                Event.warn ("Metadata.schedule client has not been initialized yet... Error: " ++
                  e1 ++ " . Wait a seconds."),
                Event.sleep 2] ++ t) = true :=
          fun t h1 h2 => afterEachFailure_block t _ _ _ h1 h2
        simp only [checkClientsInitialSuccessful]
        cases hR : (checkClientsInitialSuccessful fuel s1).1.returned with
        | false =>
          simp only [Bool.not_false, if_true]
          exact ⟨hblock _ i2 i1, rfl, by simp⟩
        | true =>
          obtain ⟨j1, j2, j3⟩ := i3 hR
          have hne : (checkClientsInitialSuccessful fuel s1).1.trace ≠ [] := by
            intro h0
            rw [h0] at j1
            simp at j1
          simp only [Bool.not_true, Bool.false_eq_true, if_false]
          cases hs : (checkClientsInitialSuccessful fuel s1).2 with
          | nil =>
            dsimp only
            exact ⟨hblock _ i2 i1, rfl, by simp⟩
          | cons err2 s2 =>
            cases err2 with
            | none =>
              dsimp only
              refine ⟨?_, rfl, ?_⟩
              · rw [List.append_assoc]
                apply hblock
                · exact startsWithSchedules_append _ _ hne i2
                · exact afterEachFailure_append _ _ _ _ i1
                    (by simp [afterEachFailure, Event.failedCall]) j1
              · intro _
                refine ⟨?_, ?_, ?_⟩
                · exact List.getLast?_concat _
                · rw [lastOutcome_append, lastOutcome_append, j2]
                  rfl
                · rw [lastOutcome_append]
                  rfl
            | some e2 =>
              obtain ⟨k1, k2, k3⟩ := ih s2
              have hb := afterEachFailure_block _ ListCall.ScheduleEvents e2
                ("Metadata.scheduleEvent has not been initialized yet... Error: " ++ e2 ++
                  " . Wait a seconds.") k2 k1
              dsimp only
              refine ⟨?_, rfl, ?_⟩
              · rw [List.append_assoc, List.append_assoc]
                apply hblock
                · exact startsWithSchedules_append _ _ hne i2
                · exact afterEachFailure_append _ _ _ _ i1 hb j1
              · intro hr
                obtain ⟨l1, l2, l3⟩ := k3 hr
                refine ⟨?_, ?_, ?_⟩
                · simp only [List.getLast?_append, l1]
                  rfl
                · simp only [lastOutcome_append, l2]
                · simp only [lastOutcome_append, l3]

/-- The unread rest of the script is never longer than the script. -/
theorem checkClients_rest_length (fuel : Nat) : ∀ script : List (Option String),
    (checkClientsInitialSuccessful fuel script).2.length ≤ script.length := by
  induction fuel with
  | zero => intro script; simp [checkClientsInitialSuccessful]
  | succ fuel ih =>
    intro script
    cases script with
    | nil => simp [checkClientsInitialSuccessful]
    | cons err1 s1 =>
      cases err1 with
      | none =>
        simp only [checkClientsInitialSuccessful, Bool.not_true, Bool.false_eq_true, if_false]
        cases s1 with
        | nil => simp
        | cons err2 s2 =>
          cases err2 with
          | none => simp; omega
          | some e2 =>
            have := ih s2
            simp only [List.length_cons]
            omega
      | some e1 =>
        have h1 := ih s1
        simp only [checkClientsInitialSuccessful]
        cases hR : (checkClientsInitialSuccessful fuel s1).1.returned with
        | false =>
          simp only [Bool.not_false, if_true, List.length_cons]
          omega
        | true =>
          simp only [Bool.not_true, Bool.false_eq_true, if_false]
          cases hs : (checkClientsInitialSuccessful fuel s1).2 with
          | nil => simp
          | cons err2 s2 =>
            rw [hs] at h1
            simp only [List.length_cons] at h1
            cases err2 with
            | none =>
              dsimp only
              simp only [List.length_cons]
              omega
            | some e2 =>
              dsimp only
              have := ih s2
              simp only [List.length_cons]
              omega

/-- A recursion bound above the length of the script is never reached: the
result does not depend on it. -/
theorem checkClients_fuel (fuel : Nat) : ∀ (fuel2 : Nat) (script : List (Option String)),
    script.length < fuel → script.length < fuel2 →
    checkClientsInitialSuccessful fuel script = checkClientsInitialSuccessful fuel2 script := by
  induction fuel with
  | zero => intro fuel2 script h; omega
  | succ fuel ih =>
    intro fuel2 script h h2
    cases fuel2 with
    | zero => omega
    | succ fuel2 =>
      cases script with
      | nil => simp [checkClientsInitialSuccessful]
      | cons err1 s1 =>
        simp only [List.length_cons] at h h2
        cases err1 with
        | none =>
          simp only [checkClientsInitialSuccessful, Bool.not_true, Bool.false_eq_true, if_false]
          cases s1 with
          | nil => rfl
          | cons err2 s2 =>
            simp only [List.length_cons] at h h2
            cases err2 with
            | none => rfl
            | some e2 =>
              dsimp only
              rw [ih fuel2 s2 (by omega) (by omega)]
        | some e1 =>
          have hlen := checkClients_rest_length fuel2 s1
          simp only [checkClientsInitialSuccessful]
          rw [ih fuel2 s1 (by omega) (by omega)]
          cases hR : (checkClientsInitialSuccessful fuel2 s1).1.returned with
          | false => rfl
          | true =>
            simp only [Bool.not_true, Bool.false_eq_true, if_false]
            cases hs : (checkClientsInitialSuccessful fuel2 s1).2 with
            | nil => rfl
            | cons err2 s2 =>
              rw [hs] at hlen
              simp only [List.length_cons] at hlen
              cases err2 with
              | none => rfl
              | some e2 =>
                dsimp only
                rw [ih fuel2 s2 (by omega) (by omega)]

/-! ## Retry of the list calls -/

/-- C6, as stated, fails: after a failed `ScheduleEvents` call and the 2-second
wait, the next call issued is `Schedules`, not `ScheduleEvents`. -/
theorem failed_scheduleEvents_restarts_at_schedules :
    (checkClientsInitialSuccessful 4 [none, some "not ready", none, none]).1 =
      ⟨[Event.listCall ListCall.Schedules none,
        Event.listCall ListCall.ScheduleEvents (some "not ready"),
        Event.warn
          "Metadata.scheduleEvent has not been initialized yet... Error: not ready . Wait a seconds.",
        Event.sleep 2,
        Event.listCall ListCall.Schedules none,
        Event.listCall ListCall.ScheduleEvents none], true⟩ ∧
    afterEachFailure sameCall
      (checkClientsInitialSuccessful 4 [none, some "not ready", none, none]).1.trace = false := by
  decide

/-- C6, amended: in every trace of `checkClientsInitialSuccessful` a failed
call, `Schedules` or `ScheduleEvents`, is followed by the warning, exactly one
wait of 2 seconds and then by a `Schedules` call (the function starts over);
in a run that returned the trace ends with a successful call, so no failed
call is left without that next call. -/
theorem failed_call_waits_then_restarts (fuel : Nat) (script : List (Option String)) :
    afterEachFailure restartCall (checkClientsInitialSuccessful fuel script).1.trace = true ∧
    ((checkClientsInitialSuccessful fuel script).1.returned = true →
      (checkClientsInitialSuccessful fuel script).1.trace.getLast? =
        some (Event.listCall ListCall.ScheduleEvents none)) :=
  ⟨(checkClients_shape fuel script).1, fun h => ((checkClients_shape fuel script).2.2 h).1⟩

/-- Instance of the amended C6: `Schedules` fails twice, then both calls
succeed. -/
theorem failed_call_waits_then_restarts_witness :
    afterEachFailure restartCall
      (checkClientsInitialSuccessful 5 [some "refused", some "refused", none, none, none,
        none]).1.trace = true ∧
    (checkClientsInitialSuccessful 5 [some "refused", some "refused", none, none, none,
        none]).1.trace.getLast? = some (Event.listCall ListCall.ScheduleEvents none) :=
  ⟨(failed_call_waits_then_restarts 5 [some "refused", some "refused", none, none, none,
      none]).1,
   (failed_call_waits_then_restarts 5 [some "refused", some "refused", none, none, none,
      none]).2 (by decide)⟩

/-! ## Return of the post-initialisation check -/

/-- C7, as stated, fails: the run returns, yet `Schedules` is called again after
it has succeeded (the restart that follows a failed `ScheduleEvents`), and in
the second run `ScheduleEvents` is called again after it has succeeded (the
calling frame resumes after its recursive call returned). -/
theorem list_call_repeated_after_success :
    ((checkClientsInitialSuccessful 4 [none, some "busy", none, none]).1.returned = true ∧
      noCallAfterSuccess
        (checkClientsInitialSuccessful 4 [none, some "busy", none, none]).1.trace = false) ∧
    (checkClientsInitialSuccessful 4 [some "busy", none, none, none]).1 =
      ⟨[Event.listCall ListCall.Schedules (some "busy"),
        Event.warn
          "Metadata.schedule client has not been initialized yet... Error: busy . Wait a seconds.",
        Event.sleep 2,
        Event.listCall ListCall.Schedules none,
        Event.listCall ListCall.ScheduleEvents none,
        Event.listCall ListCall.ScheduleEvents none], true⟩ := by
  decide

/-- C7, amended: whenever `checkClientsInitialSuccessful` returns, it returns
after success: the last event is a successful `ScheduleEvents` call, and the
most recent `Schedules` call and the most recent `ScheduleEvents` call have
both succeeded. -/
theorem returns_only_after_success (fuel : Nat) (script : List (Option String))
    (h : (checkClientsInitialSuccessful fuel script).1.returned = true) :
    (checkClientsInitialSuccessful fuel script).1.trace.getLast? =
      some (Event.listCall ListCall.ScheduleEvents none) ∧
    lastOutcome ListCall.Schedules (checkClientsInitialSuccessful fuel script).1.trace =
      some none ∧
    lastOutcome ListCall.ScheduleEvents (checkClientsInitialSuccessful fuel script).1.trace =
      some none :=
  (checkClients_shape fuel script).2.2 h

/-- Instance of the amended C7: one failure of each call, then success. -/
theorem returns_only_after_success_witness :
    (checkClientsInitialSuccessful 6 [some "busy", none, some "busy", none, none, none]).1.returned
      = true ∧
    lastOutcome ListCall.Schedules
      (checkClientsInitialSuccessful 6 [some "busy", none, some "busy", none, none,
        none]).1.trace = some none ∧
    lastOutcome ListCall.ScheduleEvents
      (checkClientsInitialSuccessful 6 [some "busy", none, some "busy", none, none,
        none]).1.trace = some none :=
  ⟨by decide,
   (returns_only_after_success 6 [some "busy", none, some "busy", none, none, none]
      (by decide)).2⟩


/-! ## Client construction -/

/-- Events of `initializeClients`, written out: eight constructor calls, six
bound to the metadata dependency and two to the data dependency. -/
theorem initializeClients_trace (cm : Common) (pk : Paths) (svc : Service) :
    (initializeClients cm pk svc).2 =
      [Event.newClient .ac
        ⟨(svc.config.Clients cm.ClientMetadata).Name, cm.V1Addressable, svc.useRegistry,
          cm.BuildAddr (svc.config.Clients cm.ClientMetadata).Host
            (Itoa (svc.config.Clients cm.ClientMetadata).Port) ++ cm.V1Addressable⟩,
       Event.newClient .dc
        ⟨(svc.config.Clients cm.ClientMetadata).Name, cm.V1Device, svc.useRegistry,
          cm.BuildAddr (svc.config.Clients cm.ClientMetadata).Host
            (Itoa (svc.config.Clients cm.ClientMetadata).Port) ++ cm.V1Device⟩,
       Event.newClient .sc
        ⟨(svc.config.Clients cm.ClientMetadata).Name, cm.V1DevService, svc.useRegistry,
          cm.BuildAddr (svc.config.Clients cm.ClientMetadata).Host
            (Itoa (svc.config.Clients cm.ClientMetadata).Port) ++ cm.V1DevService⟩,
       Event.newClient .dpc
        ⟨(svc.config.Clients cm.ClientMetadata).Name, pk.v1Deviceprofile, svc.useRegistry,
          cm.BuildAddr (svc.config.Clients cm.ClientMetadata).Host
            (Itoa (svc.config.Clients cm.ClientMetadata).Port) ++ pk.v1Deviceprofile⟩,
       Event.newClient .scc
        ⟨(svc.config.Clients cm.ClientMetadata).Name, pk.v1Schedule, svc.useRegistry,
          cm.BuildAddr (svc.config.Clients cm.ClientMetadata).Host
            (Itoa (svc.config.Clients cm.ClientMetadata).Port) ++ pk.v1Schedule⟩,
       Event.newClient .scec
        ⟨(svc.config.Clients cm.ClientMetadata).Name, pk.v1ScheduleEvent, svc.useRegistry,
          cm.BuildAddr (svc.config.Clients cm.ClientMetadata).Host
            (Itoa (svc.config.Clients cm.ClientMetadata).Port) ++ pk.v1ScheduleEvent⟩,
       Event.newClient .ec
        ⟨(svc.config.Clients cm.ClientData).Name, cm.V1Event, svc.useRegistry,
          cm.BuildAddr (svc.config.Clients cm.ClientData).Host
            (Itoa (svc.config.Clients cm.ClientData).Port) ++ cm.V1Event⟩,
       Event.newClient .vdc
        ⟨(svc.config.Clients cm.ClientData).Name, pk.v1Valuedescriptor, svc.useRegistry,
          cm.BuildAddr (svc.config.Clients cm.ClientData).Host
            (Itoa (svc.config.Clients cm.ClientData).Port) ++ pk.v1Valuedescriptor⟩] := rfl

/-- C9: `initializeClients` constructs exactly eight handles, one per
(dependency, resource) pair, in this order: addressable, device, device
service, device profile, schedule and schedule event on the metadata
dependency, event and value descriptor on the data dependency.  Each is given
`Url` = `BuildAddr(host, port)` of its own dependency followed by its resource
path, `Path` = that path, `ServiceKey` = the configured `Name` of its
dependency and `UseRegistry` = `svc.useRegistry`, and is stored in its own
field of the service.  The function is total and its trace holds nothing but
the eight constructions: no probe, no sleep, no list call. -/
theorem initializeClients_one_handle_per_resource (cm : Common) (pk : Paths) (svc : Service) :
    (initializeClients cm pk svc).2 =
      [Event.newClient .ac
        ⟨(svc.config.Clients cm.ClientMetadata).Name, cm.V1Addressable, svc.useRegistry,
          cm.BuildAddr (svc.config.Clients cm.ClientMetadata).Host
            (Itoa (svc.config.Clients cm.ClientMetadata).Port) ++ cm.V1Addressable⟩,
       Event.newClient .dc
        ⟨(svc.config.Clients cm.ClientMetadata).Name, cm.V1Device, svc.useRegistry,
          cm.BuildAddr (svc.config.Clients cm.ClientMetadata).Host
            (Itoa (svc.config.Clients cm.ClientMetadata).Port) ++ cm.V1Device⟩,
       Event.newClient .sc
        ⟨(svc.config.Clients cm.ClientMetadata).Name, cm.V1DevService, svc.useRegistry,
          cm.BuildAddr (svc.config.Clients cm.ClientMetadata).Host
            (Itoa (svc.config.Clients cm.ClientMetadata).Port) ++ cm.V1DevService⟩,
       Event.newClient .dpc
        ⟨(svc.config.Clients cm.ClientMetadata).Name, pk.v1Deviceprofile, svc.useRegistry,
          cm.BuildAddr (svc.config.Clients cm.ClientMetadata).Host
            (Itoa (svc.config.Clients cm.ClientMetadata).Port) ++ pk.v1Deviceprofile⟩,
       Event.newClient .scc
        ⟨(svc.config.Clients cm.ClientMetadata).Name, pk.v1Schedule, svc.useRegistry,
          cm.BuildAddr (svc.config.Clients cm.ClientMetadata).Host
            (Itoa (svc.config.Clients cm.ClientMetadata).Port) ++ pk.v1Schedule⟩,
       Event.newClient .scec
        ⟨(svc.config.Clients cm.ClientMetadata).Name, pk.v1ScheduleEvent, svc.useRegistry,
          cm.BuildAddr (svc.config.Clients cm.ClientMetadata).Host
            (Itoa (svc.config.Clients cm.ClientMetadata).Port) ++ pk.v1ScheduleEvent⟩,
       Event.newClient .ec
        ⟨(svc.config.Clients cm.ClientData).Name, cm.V1Event, svc.useRegistry,
          cm.BuildAddr (svc.config.Clients cm.ClientData).Host
            (Itoa (svc.config.Clients cm.ClientData).Port) ++ cm.V1Event⟩,
       Event.newClient .vdc
        ⟨(svc.config.Clients cm.ClientData).Name, pk.v1Valuedescriptor, svc.useRegistry,
          cm.BuildAddr (svc.config.Clients cm.ClientData).Host
            (Itoa (svc.config.Clients cm.ClientData).Port) ++ pk.v1Valuedescriptor⟩] ∧
    (initializeClients cm pk svc).2.map Event.clientKind? =
      [some .ac, some .dc, some .sc, some .dpc, some .scc, some .scec, some .ec, some .vdc] ∧
    (initializeClients cm pk svc).2 =
      [((initializeClients cm pk svc).1.ac.map (Event.newClient .ac)),
       ((initializeClients cm pk svc).1.dc.map (Event.newClient .dc)),
       ((initializeClients cm pk svc).1.sc.map (Event.newClient .sc)),
       ((initializeClients cm pk svc).1.dpc.map (Event.newClient .dpc)),
       ((initializeClients cm pk svc).1.scc.map (Event.newClient .scc)),
       ((initializeClients cm pk svc).1.scec.map (Event.newClient .scec)),
       ((initializeClients cm pk svc).1.ec.map (Event.newClient .ec)),
       ((initializeClients cm pk svc).1.vdc.map (Event.newClient .vdc))].filterMap id ∧
    (initializeClients cm pk svc).1.config = svc.config ∧
    (initializeClients cm pk svc).1.useRegistry = svc.useRegistry ∧
    probeCount (initializeClients cm pk svc).2 = 0 ∧
    sleepTotal (initializeClients cm pk svc).2 = 0 ∧
    ∀ e ∈ (initializeClients cm pk svc).2, e.isNewClient = true ∧ e.isListCall = false := by
  refine ⟨rfl, rfl, rfl, rfl, rfl, ?_, ?_, ?_⟩
  · rw [initializeClients_trace]
    rfl
  · rw [initializeClients_trace]
    rfl
  · rw [initializeClients_trace]
    intro e he
    simp only [List.mem_cons, List.mem_singleton, List.not_mem_nil, or_false] at he
    rcases he with rfl | rfl | rfl | rfl | rfl | rfl | rfl | rfl <;> exact ⟨rfl, rfl⟩


/-! ## Order of the four steps -/

theorem interleave_mem (e : Event) : ∀ (s : List Bool) (a b : List Event),
    e ∈ interleave s a b ↔ e ∈ a ∨ e ∈ b := by
  intro s
  induction s with
  | nil => intro a b; simp [interleave]
  | cons x s ih =>
    intro a b
    cases x with
    | true =>
      cases a with
      | nil => simp [interleave]
      | cons y a => simp [interleave, ih, or_assoc]
    | false =>
      cases b with
      | nil => simp [interleave]
      | cons y b =>
        simp only [interleave, List.mem_cons, ih]
        tauto

theorem initializeClients_events (cm : Common) (pk : Paths) (svc : Service) :
    ∀ e ∈ (initializeClients cm pk svc).2, e.isNewClient = true ∧ e.isListCall = false := by
  rw [initializeClients_trace]
  intro e he
  simp only [List.mem_cons, List.mem_singleton, List.not_mem_nil, or_false] at he
  rcases he with rfl | rfl | rfl | rfl | rfl | rfl | rfl | rfl <;> exact ⟨rfl, rfl⟩

theorem initializeLoggingClient_events (cm : Common) (svc : Service) (get : GetResult) :
    ∀ e ∈ (initializeLoggingClient cm svc get).2,
      e.isNewClient = false ∧ e.isListCall = false := by
  unfold initializeLoggingClient
  split
  · simp [Event.isNewClient, Event.isListCall]
  · cases get <;>
      simp [checkRemoteLoggingAvailable, GetResult.err, Event.isNewClient, Event.isListCall]

theorem checkDependencyServices_events (cm : Common) (svc : Service)
    (data metadata : List Cycle) (schedule : List Bool) :
    ∀ e ∈ (checkDependencyServices cm svc data metadata schedule).trace,
      e.isNewClient = false ∧ e.isListCall = false := by
  intro e he
  simp only [checkDependencyServices, interleave_mem] at he
  rcases he with he | he
  · exact checkServiceAvailable_events cm svc _ _ e he
  · exact checkServiceAvailable_events cm svc _ _ e he

/-- An event of a kind that does not occur in `a` splits `a ++ b` inside `b`. -/
theorem split_after_prefix (P : Event → Bool) (a b pre post : List Event) (ev : Event)
    (h : a ++ b = pre ++ ev :: post) (ha : ∀ e ∈ a, P e = false) (hev : P ev = true) :
    ∃ mid, pre = a ++ mid ∧ b = mid ++ ev :: post := by
  rcases List.append_eq_append_iff.mp h with ⟨a2, h1, h2⟩ | ⟨c2, h1, h2⟩
  · exact ⟨a2, h1, h2⟩
  · cases c2 with
    | nil =>
      refine ⟨[], ?_, ?_⟩
      · simpa using h1.symm
      · simpa using h2.symm
    | cons x c3 =>
      simp only [List.cons_append, List.cons.injEq] at h2
      have hx : ev ∈ a := by
        rw [h1, h2.1]
        simp
      rw [ha ev hx] at hev
      exact absurd hev (by simp)

/-- The trace of `initDependencyClients`: logging client, gate, and, once the
gate has returned, the eight constructions and the list calls. -/
theorem initDependencyClients_trace (cm : Common) (pk : Paths) (svc : Service) (w : World) :
    (initDependencyClients cm pk svc w).2.trace =
      ((initializeLoggingClient cm svc w.loggingPing).2 ++
        (checkDependencyServices cm (initializeLoggingClient cm svc w.loggingPing).1
          w.data w.metadata w.schedule).trace) ++
      (if (checkDependencyServices cm (initializeLoggingClient cm svc w.loggingPing).1
            w.data w.metadata w.schedule).returned then
        (initializeClients cm pk (initializeLoggingClient cm svc w.loggingPing).1).2 ++
          ((checkClientsInitialSuccessful (w.listCalls.length + 1) w.listCalls).1.trace ++
            (if (checkClientsInitialSuccessful (w.listCalls.length + 1) w.listCalls).1.returned
              then [Event.info "Service clients initialize successful."] else []))
      else []) := by
  unfold initDependencyClients
  cases hg : (checkDependencyServices cm (initializeLoggingClient cm svc w.loggingPing).1
      w.data w.metadata w.schedule).returned with
  | false => simp [hg]
  | true =>
    cases hc : (checkClientsInitialSuccessful (w.listCalls.length + 1) w.listCalls).1.returned with
    | false => simp [hg, hc]
    | true => simp [hg, hc]

/-- A branch that returned ends with a healthy probe of its dependency. -/
theorem checkServiceAvailable_returned_ends_healthy (cm : Common) (svc : Service)
    (serviceId : String) (script : List Cycle)
    (h : (checkServiceAvailable cm svc serviceId script).returned = true) :
    ∃ fails c rest, script = fails ++ c :: rest ∧
      (probe cm svc serviceId c).1 = true ∧
      (checkServiceAvailable cm svc serviceId script).trace =
        failedCycles cm svc serviceId fails ++ (probe cm svc serviceId c).2 := by
  obtain ⟨fails, c, rest, e, hf, hc⟩ :=
    checkServiceAvailable_returned_split cm svc serviceId script h
  refine ⟨fails, c, rest, e, hc, ?_⟩
  rw [e]
  exact (checkServiceAvailable_fails_then_healthy cm svc serviceId fails c rest hf hc).2.2.2

/-- C8: in every trace of `initDependencyClients`, a client construction event
comes after the whole trace of `checkDependencyServices`, which has returned;
by then the branch of the data dependency and the branch of the metadata
dependency have each ended with a probe that reported healthy, and all their
events are part of the gate trace.  A list call comes after the logging step,
the gate and all eight constructions. -/
theorem clients_constructed_after_gate (cm : Common) (pk : Paths) (svc : Service) (w : World)
    (pre post : List Event) (ev : Event)
    (hsplit : (initDependencyClients cm pk svc w).2.trace = pre ++ ev :: post) :
    (ev.isNewClient = true →
      (checkDependencyServices cm (initializeLoggingClient cm svc w.loggingPing).1
        w.data w.metadata w.schedule).returned = true ∧
      (∃ mid, pre = (initializeLoggingClient cm svc w.loggingPing).2 ++
        (checkDependencyServices cm (initializeLoggingClient cm svc w.loggingPing).1
          w.data w.metadata w.schedule).trace ++ mid) ∧
      (∃ fails c rest, w.data = fails ++ c :: rest ∧
        (probe cm (initializeLoggingClient cm svc w.loggingPing).1 cm.ClientData c).1 = true ∧
        (checkServiceAvailable cm (initializeLoggingClient cm svc w.loggingPing).1
          cm.ClientData w.data).trace =
          failedCycles cm (initializeLoggingClient cm svc w.loggingPing).1 cm.ClientData fails ++
            (probe cm (initializeLoggingClient cm svc w.loggingPing).1 cm.ClientData c).2) ∧
      (∃ fails c rest, w.metadata = fails ++ c :: rest ∧
        (probe cm (initializeLoggingClient cm svc w.loggingPing).1 cm.ClientMetadata c).1 = true ∧
        (checkServiceAvailable cm (initializeLoggingClient cm svc w.loggingPing).1
          cm.ClientMetadata w.metadata).trace =
          failedCycles cm (initializeLoggingClient cm svc w.loggingPing).1 cm.ClientMetadata
            fails ++
            (probe cm (initializeLoggingClient cm svc w.loggingPing).1 cm.ClientMetadata c).2) ∧
      (∀ e,
        e ∈ (checkServiceAvailable cm (initializeLoggingClient cm svc w.loggingPing).1
            cm.ClientData w.data).trace ∨
        e ∈ (checkServiceAvailable cm (initializeLoggingClient cm svc w.loggingPing).1
            cm.ClientMetadata w.metadata).trace →
        e ∈ (checkDependencyServices cm (initializeLoggingClient cm svc w.loggingPing).1
          w.data w.metadata w.schedule).trace)) ∧
    (ev.isListCall = true →
      (∃ mid, pre = (initializeLoggingClient cm svc w.loggingPing).2 ++
        (checkDependencyServices cm (initializeLoggingClient cm svc w.loggingPing).1
          w.data w.metadata w.schedule).trace ++
        (initializeClients cm pk (initializeLoggingClient cm svc w.loggingPing).1).2 ++ mid) ∧
      ((initializeClients cm pk (initializeLoggingClient cm svc w.loggingPing).1).2.map
          Event.clientKind? =
        [some .ac, some .dc, some .sc, some .dpc, some .scc, some .scec, some .ec,
          some .vdc])) := by
  rw [initDependencyClients_trace] at hsplit
  have hpre : ∀ e ∈ (initializeLoggingClient cm svc w.loggingPing).2 ++
      (checkDependencyServices cm (initializeLoggingClient cm svc w.loggingPing).1
        w.data w.metadata w.schedule).trace,
      e.isNewClient = false ∧ e.isListCall = false := by
    intro e he
    rcases List.mem_append.mp he with he | he
    · exact initializeLoggingClient_events cm svc _ e he
    · exact checkDependencyServices_events cm _ _ _ _ e he
  have hret : ∀ mid : List Event,
      (if (checkDependencyServices cm (initializeLoggingClient cm svc w.loggingPing).1
            w.data w.metadata w.schedule).returned then
        (initializeClients cm pk (initializeLoggingClient cm svc w.loggingPing).1).2 ++
          ((checkClientsInitialSuccessful (w.listCalls.length + 1) w.listCalls).1.trace ++
            (if (checkClientsInitialSuccessful (w.listCalls.length + 1) w.listCalls).1.returned
              then [Event.info "Service clients initialize successful."] else []))
      else []) = mid ++ ev :: post →
      (checkDependencyServices cm (initializeLoggingClient cm svc w.loggingPing).1
        w.data w.metadata w.schedule).returned = true := by
    intro mid hm
    cases hg : (checkDependencyServices cm (initializeLoggingClient cm svc w.loggingPing).1
        w.data w.metadata w.schedule).returned with
    | true => rfl
    | false =>
      rw [hg] at hm
      simp at hm
  refine ⟨?_, ?_⟩
  · intro hev
    obtain ⟨mid, h1, h2⟩ := split_after_prefix Event.isNewClient _ _ pre post ev hsplit
      (fun e he => (hpre e he).1) hev
    have hg := hret mid h2
    have hg2 := hg
    simp only [checkDependencyServices, Bool.and_eq_true] at hg2
    refine ⟨hg, ⟨mid, h1⟩,
      checkServiceAvailable_returned_ends_healthy cm _ _ _ hg2.1,
      checkServiceAvailable_returned_ends_healthy cm _ _ _ hg2.2, ?_⟩
    intro e he
    simp only [checkDependencyServices, interleave_mem]
    exact he
  · intro hev
    obtain ⟨mid, h1, h2⟩ := split_after_prefix Event.isListCall _ _ pre post ev hsplit
      (fun e he => (hpre e he).2) hev
    have hg := hret mid h2
    rw [hg, if_pos rfl] at h2
    obtain ⟨mid2, h3, _⟩ := split_after_prefix Event.isListCall _ _ mid post ev h2
      (fun e he =>
        (initializeClients_events cm pk _ e he).2) hev
    refine ⟨⟨mid2, ?_⟩, ?_⟩
    · rw [h1, h3]
      simp only [List.append_assoc]
    · rw [initializeClients_trace]
      rfl

/-- Instance of C8: the data dependency is healthy at once, the metadata
dependency at its second probe, both list calls succeed.  The first
construction is event 9 of the trace and the first list call is event 17. -/
theorem clients_constructed_after_gate_witness :
    (checkDependencyServices demoCommon
        (initializeLoggingClient demoCommon (demoService false "") demoWorld.loggingPing).1
        demoWorld.data demoWorld.metadata demoWorld.schedule).returned = true ∧
    ∃ mid,
      (initDependencyClients demoCommon demoPaths (demoService false "") demoWorld).2.trace.take 17 =
        (initializeLoggingClient demoCommon (demoService false "") demoWorld.loggingPing).2 ++
        (checkDependencyServices demoCommon
          (initializeLoggingClient demoCommon (demoService false "") demoWorld.loggingPing).1
          demoWorld.data demoWorld.metadata demoWorld.schedule).trace ++
        (initializeClients demoCommon demoPaths
          (initializeLoggingClient demoCommon (demoService false "")
            demoWorld.loggingPing).1).2 ++ mid :=
  ⟨((clients_constructed_after_gate demoCommon demoPaths (demoService false "") demoWorld
      ((initDependencyClients demoCommon demoPaths (demoService false "") demoWorld).2.trace.take 9)
      ((initDependencyClients demoCommon demoPaths (demoService false "") demoWorld).2.trace.drop 10)
      (Event.newClient ClientKind.ac
        ⟨"edgex-core-metadata", "/api/v1/addressable", false,
          "http://localhost:48081/api/v1/addressable"⟩)
      (by decide)).1 rfl).1,
   ((clients_constructed_after_gate demoCommon demoPaths (demoService false "") demoWorld
      ((initDependencyClients demoCommon demoPaths (demoService false "") demoWorld).2.trace.take 17)
      ((initDependencyClients demoCommon demoPaths (demoService false "") demoWorld).2.trace.drop 18)
      (Event.listCall ListCall.Schedules none)
      (by decide)).2 rfl).1⟩

/-! ## Registry mode with an empty registry address -/

/-- C10, as stated, fails: with registry mode selected and an empty registry
host, `checkServiceAvailable` does probe (it dials ":8500") and, the probe
having failed, does wait 10 seconds; the run has not returned and has produced
no failure result, and the gate does the same for both dependencies. -/
theorem empty_registry_address_is_probed :
    checkServiceAvailable demoCommon (demoService true "") "Data" [registryDown] =
      ⟨[Event.info "Check edgex-core-data service's status by Consul...",
        Event.dial ":8500",
        Event.error
          "Consul cannot be reached, address: :8500 and error is \"connection refused\" ",
        Event.sleep 10], false⟩ ∧
    probeCount (checkDependencyServices demoCommon (demoService true "")
      [registryDown] [registryDown] []).trace = 2 ∧
    sleepTotal (checkDependencyServices demoCommon (demoService true "")
      [registryDown] [registryDown] []).trace = 20 := by
  decide

/-- C10, amended: with registry mode selected and an empty registry address no
configuration check is made and no fatal outcome exists.  Every cycle of
`checkServiceAvailable` starts with its log line and a dial of ":" followed by
the port; an unhealthy probe is followed by one wait of 10 seconds and the next
cycle, a healthy probe makes the function return. -/
theorem empty_registry_address_retries (cm : Common) (svc : Service) (serviceId : String)
    (c : Cycle) (rest : List Cycle)
    (hreg : svc.useRegistry = true) (hhost : svc.config.Registry.Host = "") :
    (∃ tail, (checkServiceAvailable cm svc serviceId (c :: rest)).trace =
      Event.info ("Check " ++ (svc.config.Clients serviceId).Name ++
          " service's status by Consul...") ::
        Event.dial (":" ++ Itoa svc.config.Registry.Port) :: tail) ∧
    ((probe cm svc serviceId c).1 = false →
      (checkServiceAvailable cm svc serviceId (c :: rest)).trace =
        (probe cm svc serviceId c).2 ++ [Event.sleep 10] ++
          (checkServiceAvailable cm svc serviceId rest).trace ∧
      (checkServiceAvailable cm svc serviceId (c :: rest)).returned =
        (checkServiceAvailable cm svc serviceId rest).returned) ∧
    ((probe cm svc serviceId c).1 = true →
      checkServiceAvailable cm svc serviceId (c :: rest) = ⟨(probe cm svc serviceId c).2, true⟩) ∧
    (checkServiceAvailable cm svc serviceId []).returned = false := by
  have hpt : pingTimeout svc c = false := by simp [pingTimeout, hreg]
  have hempty : ("" : String) ++ ":" = ":" := by decide
  refine ⟨?_, ?_, ?_, rfl⟩
  · obtain ⟨tail, ht⟩ := checkServiceAvailable_head cm svc serviceId c rest
    rw [ht]
    obtain ⟨ping, dial, newClient, catalog, health⟩ := c
    cases dial with
    | some d =>
      simp [probe, hreg, checkServiceAvailableByConsul, checkConsulAvailable, hhost, hempty]
    | none =>
      have hup : ∃ t2, (probe cm svc serviceId ⟨ping, none, newClient, catalog, health⟩).2 =
          Event.info ("Check " ++ (svc.config.Clients serviceId).Name ++
            " service's status by Consul...") ::
          Event.dial (":" ++ Itoa svc.config.Registry.Port) :: t2 := by
        simp only [probe, hreg, if_true, checkServiceAvailableByConsul, checkConsulAvailable,
          hhost, hempty, Bool.not_true, Bool.false_eq_true, if_false]
        repeat' split
        all_goals exact ⟨_, rfl⟩
      obtain ⟨t2, h2⟩ := hup
      rw [h2]
      exact ⟨t2 ++ tail, rfl⟩
  · intro hp
    rw [checkServiceAvailable_cons, if_neg (by simp [hp]), hpt]
    exact ⟨rfl, rfl⟩
  · intro hp
    rw [checkServiceAvailable_cons, if_pos hp]

/-- Instance of the amended C10: empty registry host, registry port refused in
the first cycle and answering "passing" in the second. -/
theorem empty_registry_address_retries_witness :
    (checkServiceAvailable demoCommon (demoService true "") "Data"
        (registryDown :: [registryUp 1 "passing"])).trace =
      (probe demoCommon (demoService true "") "Data" registryDown).2 ++ [Event.sleep 10] ++
        (checkServiceAvailable demoCommon (demoService true "") "Data"
          [registryUp 1 "passing"]).trace ∧
    (checkServiceAvailable demoCommon (demoService true "") "Data"
        (registryDown :: [registryUp 1 "passing"])).returned =
      (checkServiceAvailable demoCommon (demoService true "") "Data"
        [registryUp 1 "passing"]).returned :=
  (empty_registry_address_retries demoCommon (demoService true "") "Data" registryDown
    [registryUp 1 "passing"] rfl rfl).2.1 (by decide)

end DeviceSdk
